import Mathlib

/-!
# uselessbox: the synchronized state machine

A shallow embedding of `src/statemachine.c` / `src/statemachine.h` and of the
functions of `src/main.c` that drive it.

* The two C enums are inductive types carrying every enumerator of the header,
  the end markers `ss_END` / `sa_END` included, so that the `default:` branches
  of the C switches are real branches of the model.
* The process-wide variables of `statemachine.c` (`state`, `sscids_head`,
  `sscid_count`, `sscid_uniqueid`) are the fields of `Machine`.  The client
  records are owned by the callers and reached through `statemachine_cid*`
  pointers; the model keeps them in `Machine.mem`, a memory indexed by address,
  and the registry list holds addresses, as the C list holds pointers.
* The mutex makes every API call atomic; a call is a function on `Machine`.
  `pthread_cond_wait` is modelled by `none`: the caller stays blocked until
  another call sets its flag.
* `malloc` is an input of `statemachine_init` (a flag: does the allocation
  succeed); a failed `assert` aborts the process, which is the result `none`.
* An execution is a list of API calls in the order in which the mutex
  serialises them (`Op`, `step`, `exec`), started in `initial_machine`.
* Console output (`print_stdout`, `print_stderr`) is not modelled.
* `EAGAIN` and `EINVAL` come from the C library's `errno.h`; the Linux values
  are used.  `EOK` is defined by `util.h` as 0.
-/

namespace Uselessbox

/-- States of the box: `statemachine_states_t` of statemachine.h. -/
inductive statemachine_states_t where
  | ss_idle
  | ss_powerup
  | ss_alarming
  | ss_reseting
  | ss_before_shutdown
  | ss_shutdown
  | ss_scare_setup
  | ss_scare_step1
  | ss_scare_step2
  | ss_scare_step3
  | ss_timeout_then_reset
  | ss_reseting_retry
  | ss_offence
  | ss_suspicion_setup
  | ss_suspicion_step1
  | ss_suspicion_step2
  | ss_suspicion_step3
  | ss_slow_finger_setup
  | ss_slow_finger_step1
  | ss_slow_finger_step2
  | ss_END
  deriving DecidableEq, Repr

/-- Stimuli of the state machine: `statemachine_actions_t` of statemachine.h. -/
inductive statemachine_actions_t where
  | sa_transition_next
  | sa_arm_reset
  | sa_arm_alarm
  | sa_arm_motion
  | sa_arm_off
  | sa_shutdown
  | sa_shutdown_done
  | sa_timeout
  | sa_scare_timeout
  | sa_scare_exit
  | sa_suspicion_timeout
  | sa_suspicion_exit
  | sa_slowfinger_timeout
  | sa_END
  deriving DecidableEq, Repr

open statemachine_states_t statemachine_actions_t

/-- The success code, `#define EOK 0` of util.h. -/
def EOK : Int := 0

/-- The errno.h code `EAGAIN` (Linux value). -/
def EAGAIN : Int := 11

/-- The errno.h code `EINVAL` (Linux value). -/
def EINVAL : Int := 22

/-- Client record: `statemachine_cid` of statemachine.h. -/
structure statemachine_cid where
  id : Int
  state_haschanged : Bool
  deriving DecidableEq, Repr

/-- Address of a caller-owned `statemachine_cid` (a `statemachine_cid*`). -/
abbrev Ptr := Nat

/-- The static variables of statemachine.c together with the client records
they point to. `sscids_head` is the singly linked list, head first; each entry
holds the `pcid` pointer it was registered with. -/
structure Machine where
  state : statemachine_states_t
  sscids_head : List Ptr
  sscid_count : Int
  sscid_uniqueid : Int
  mem : Ptr → statemachine_cid

/-- The C function `statemachine_get_current_state_nolock`. -/
def statemachine_get_current_state_nolock (m : Machine) : statemachine_states_t :=
  m.state

/-- Store `state_haschanged = true` through the pointer `p`. -/
def set_haschanged (mem : Ptr → statemachine_cid) (p : Ptr) : Ptr → statemachine_cid :=
  Function.update mem p { mem p with state_haschanged := true }

/-- Store `state_haschanged = false` through the pointer `p`. -/
def clear_haschanged (mem : Ptr → statemachine_cid) (p : Ptr) : Ptr → statemachine_cid :=
  Function.update mem p { mem p with state_haschanged := false }

/-- The C function `statemachine_set_state_change_nolock`: walk the registry,
raise every client's flag, then store the new state. -/
def statemachine_set_state_change_nolock (m : Machine)
    (new_state : statemachine_states_t) : Machine :=
  { m with
    mem := m.sscids_head.foldl set_haschanged m.mem
    state := new_state }

/-- The nested `switch` of `statemachine_next_state` (statemachine.c lines
226-883): from `ret = EAGAIN` and `next_state = current_state` it yields the
final `(next_state, ret)`. -/
def statemachine_next_state_switch (current_state : statemachine_states_t)
    (action : statemachine_actions_t) : statemachine_states_t × Int :=
  let ret := EAGAIN
  let next_state := current_state
  match current_state with
  | ss_idle =>
    match action with
    | sa_transition_next | sa_arm_off | sa_timeout => (ss_idle, ret)
    | sa_arm_alarm | sa_arm_motion => (ss_alarming, ret)
    | sa_arm_reset => (ss_reseting, ret)
    | sa_shutdown | sa_shutdown_done => (ss_before_shutdown, ret)
    | _ => (next_state, EINVAL)
  | ss_powerup =>
    match action with
    | sa_transition_next | sa_timeout => (ss_powerup, ret)
    | sa_arm_off => (ss_idle, ret)
    | sa_arm_alarm | sa_arm_motion => (ss_alarming, ret)
    | sa_arm_reset => (ss_reseting, ret)
    | sa_shutdown | sa_shutdown_done => (ss_before_shutdown, ret)
    | _ => (next_state, EINVAL)
  | ss_alarming =>
    match action with
    | sa_transition_next | sa_arm_alarm | sa_arm_motion | sa_timeout => (ss_alarming, ret)
    | sa_arm_off => (ss_idle, ret)
    | sa_arm_reset => (ss_reseting, ret)
    | sa_shutdown | sa_shutdown_done => (ss_before_shutdown, ret)
    | _ => (next_state, EINVAL)
  | ss_reseting =>
    match action with
    | sa_transition_next | sa_arm_reset | sa_timeout => (ss_reseting, ret)
    | sa_arm_off => (ss_idle, ret)
    | sa_arm_alarm => (ss_alarming, ret)
    | sa_arm_motion => (ss_scare_setup, ret)
    | sa_shutdown | sa_shutdown_done => (ss_before_shutdown, ret)
    | _ => (next_state, EINVAL)
  | ss_scare_setup =>
    match action with
    | sa_scare_exit => (ss_reseting_retry, ret)
    | sa_transition_next | sa_arm_reset | sa_arm_motion => (ss_scare_setup, ret)
    | sa_arm_alarm | sa_arm_off => (ss_scare_step1, ret)
    | sa_shutdown | sa_shutdown_done => (ss_before_shutdown, ret)
    | _ => (next_state, EINVAL)
  | ss_scare_step1 =>
    match action with
    | sa_scare_exit => (ss_scare_step3, ret)
    | sa_scare_timeout | sa_arm_reset | sa_arm_off => (ss_scare_step2, ret)
    | sa_transition_next | sa_arm_alarm | sa_arm_motion => (ss_scare_step1, ret)
    | sa_shutdown | sa_shutdown_done => (ss_before_shutdown, ret)
    | _ => (next_state, EINVAL)
  | ss_scare_step2 =>
    match action with
    | sa_scare_exit => (ss_scare_step3, ret)
    | sa_arm_motion => (ss_scare_step2, ret)
    | sa_scare_timeout | sa_arm_alarm => (ss_scare_step1, ret)
    | sa_transition_next | sa_arm_reset | sa_arm_off => (ss_offence, ret)
    | sa_shutdown | sa_shutdown_done => (ss_before_shutdown, ret)
    | _ => (next_state, EINVAL)
  | ss_scare_step3 =>
    match action with
    | sa_scare_exit | sa_transition_next | sa_scare_timeout | sa_arm_alarm
    | sa_arm_motion => (ss_scare_step3, ret)
    | sa_arm_reset => (ss_reseting_retry, ret)
    | sa_arm_off => (ss_suspicion_setup, ret)
    | sa_shutdown | sa_shutdown_done => (ss_before_shutdown, ret)
    | _ => (next_state, EINVAL)
  | ss_timeout_then_reset =>
    match action with
    | sa_transition_next | sa_arm_reset | sa_arm_off => (ss_timeout_then_reset, ret)
    | sa_timeout => (ss_reseting, ret)
    | sa_arm_alarm | sa_arm_motion => (ss_scare_setup, ret)
    | sa_shutdown | sa_shutdown_done => (ss_before_shutdown, ret)
    | _ => (next_state, EINVAL)
  | ss_reseting_retry =>
    match action with
    | sa_transition_next | sa_arm_reset | sa_timeout | sa_arm_motion => (ss_reseting_retry, ret)
    | sa_arm_off => (ss_suspicion_setup, ret)
    | sa_arm_alarm => (ss_offence, ret)
    | sa_shutdown | sa_shutdown_done => (ss_before_shutdown, ret)
    | _ => (next_state, EINVAL)
  | ss_offence =>
    match action with
    | sa_transition_next | sa_arm_alarm | sa_arm_motion | sa_arm_off
    | sa_timeout => (ss_offence, ret)
    | sa_arm_reset => (ss_timeout_then_reset, ret)
    | sa_shutdown | sa_shutdown_done => (ss_before_shutdown, ret)
    | _ => (next_state, EINVAL)
  | ss_suspicion_setup =>
    match action with
    | sa_transition_next | sa_arm_off | sa_arm_reset => (ss_suspicion_setup, ret)
    | sa_suspicion_timeout => (ss_suspicion_step1, ret)
    | sa_suspicion_exit => (ss_slow_finger_step2, ret)
    | sa_arm_alarm | sa_arm_motion => (ss_slow_finger_setup, ret)
    | sa_shutdown | sa_shutdown_done => (ss_before_shutdown, ret)
    | _ => (next_state, EINVAL)
  | ss_suspicion_step1 =>
    match action with
    | sa_transition_next | sa_arm_off | sa_arm_reset => (ss_suspicion_step1, ret)
    | sa_suspicion_timeout => (ss_suspicion_step2, ret)
    | sa_suspicion_exit => (ss_slow_finger_step2, ret)
    | sa_arm_alarm | sa_arm_motion => (ss_slow_finger_setup, ret)
    | sa_shutdown | sa_shutdown_done => (ss_before_shutdown, ret)
    | _ => (next_state, EINVAL)
  | ss_suspicion_step2 =>
    match action with
    | sa_transition_next | sa_arm_off | sa_arm_reset => (ss_suspicion_step2, ret)
    | sa_suspicion_timeout => (ss_suspicion_step3, ret)
    | sa_suspicion_exit => (ss_slow_finger_step2, ret)
    | sa_arm_alarm | sa_arm_motion => (ss_slow_finger_setup, ret)
    | sa_shutdown | sa_shutdown_done => (ss_before_shutdown, ret)
    | _ => (next_state, EINVAL)
  | ss_suspicion_step3 =>
    match action with
    | sa_transition_next | sa_arm_reset | sa_suspicion_timeout => (ss_suspicion_step3, ret)
    | sa_suspicion_exit => (ss_slow_finger_step2, ret)
    | sa_arm_off => (ss_suspicion_setup, ret)
    | sa_arm_alarm | sa_arm_motion => (ss_slow_finger_setup, ret)
    | sa_shutdown | sa_shutdown_done => (ss_before_shutdown, ret)
    | _ => (next_state, EINVAL)
  | ss_slow_finger_setup =>
    match action with
    | sa_transition_next | sa_arm_alarm | sa_arm_motion | sa_arm_off => (ss_slow_finger_setup, ret)
    | sa_slowfinger_timeout => (ss_slow_finger_step1, ret)
    | sa_arm_reset => (ss_slow_finger_step2, ret)
    | sa_shutdown | sa_shutdown_done => (ss_before_shutdown, ret)
    | _ => (next_state, EINVAL)
  | ss_slow_finger_step1 =>
    match action with
    | sa_transition_next | sa_arm_alarm | sa_arm_motion | sa_arm_off => (ss_slow_finger_step1, ret)
    | sa_slowfinger_timeout => (ss_slow_finger_setup, ret)
    | sa_arm_reset => (ss_slow_finger_step2, ret)
    | sa_shutdown | sa_shutdown_done => (ss_before_shutdown, ret)
    | _ => (next_state, EINVAL)
  | ss_slow_finger_step2 =>
    match action with
    | sa_transition_next | sa_arm_reset | sa_slowfinger_timeout => (ss_slow_finger_step2, ret)
    | sa_arm_alarm | sa_arm_motion => (ss_scare_setup, ret)
    | sa_arm_off => (ss_timeout_then_reset, ret)
    | sa_shutdown | sa_shutdown_done => (ss_before_shutdown, ret)
    | _ => (next_state, EINVAL)
  | ss_before_shutdown =>
    match action with
    | sa_transition_next | sa_arm_reset | sa_arm_alarm | sa_arm_motion | sa_arm_off
    | sa_shutdown | sa_timeout => (ss_before_shutdown, ret)
    -- `case sa_shutdown_done:` has no `break` and runs on into `default:`
    | sa_shutdown_done => (ss_shutdown, EINVAL)
    | _ => (next_state, EINVAL)
  | ss_shutdown =>
    match action with
    | sa_transition_next | sa_arm_reset | sa_arm_alarm | sa_arm_motion | sa_arm_off
    | sa_shutdown | sa_shutdown_done | sa_timeout => (ss_shutdown, ret)
    | _ => (next_state, EINVAL)
  -- `default:` unknown current state
  | _ => (next_state, EINVAL)

/-- What a call of `statemachine_next_state` leaves behind: the returned code,
the caller's `*pnew_state` variable and the machine. -/
structure next_state_result where
  ret : Int
  pnew_state : Option statemachine_states_t
  m : Machine

/-- The C function `statemachine_next_state`. The out-parameter `pnew_state` is
`none` for a NULL pointer and `some v` for a pointer to a variable holding `v`. -/
def statemachine_next_state (m : Machine) (action : statemachine_actions_t)
    (pnew_state : Option statemachine_states_t) : next_state_result :=
  let current_state := statemachine_get_current_state_nolock m
  let sw := statemachine_next_state_switch current_state action
  let next_state := sw.1
  let ret := sw.2
  -- pass new state to caller
  let pnew_state := pnew_state.map (fun _ => next_state)
  -- notify all clients only if state changes occurred
  let m := if current_state ≠ next_state then
      statemachine_set_state_change_nolock m next_state
    else m
  { ret := ret, pnew_state := pnew_state, m := m }

/-- The C function `statemachine_wait_state_change`. `none` means the caller
blocks in `pthread_cond_wait` (its flag is clear); otherwise the flag is
cleared and the current state is stored through `pnew_state`. -/
def statemachine_wait_state_change (m : Machine) (pcid : Ptr) :
    Option (Int × statemachine_states_t × Machine) :=
  if !(m.mem pcid).state_haschanged then none
  else
    let m1 : Machine := { m with mem := clear_haschanged m.mem pcid }
    some (EOK, statemachine_get_current_state_nolock m1, m1)

/-- One row of the transition table as the specification prints it in its
section 4.2: the state, the actions that keep it, and the actions that leave
it with their target. -/
structure table_row where
  state : statemachine_states_t
  same : List statemachine_actions_t
  next : List (statemachine_actions_t × statemachine_states_t)

/-- The table of section 4.2 of the specification, row by row, in the order
and with the entries printed there (the specification's names are given by
the enumerators: Resetting is `ss_reseting`, Scare1 is `ss_scare_step1`,
Next is `sa_transition_next`, and so on). The terminal state has no row. -/
def spec_table_rows : List table_row :=
  [ { state := ss_idle
      same := [sa_transition_next, sa_arm_off, sa_timeout]
      next := [(sa_arm_alarm, ss_alarming), (sa_arm_motion, ss_alarming),
               (sa_arm_reset, ss_reseting),
               (sa_shutdown, ss_before_shutdown), (sa_shutdown_done, ss_before_shutdown)] },
    { state := ss_powerup
      same := [sa_transition_next, sa_timeout]
      next := [(sa_arm_off, ss_idle),
               (sa_arm_alarm, ss_alarming), (sa_arm_motion, ss_alarming),
               (sa_arm_reset, ss_reseting),
               (sa_shutdown, ss_before_shutdown), (sa_shutdown_done, ss_before_shutdown)] },
    { state := ss_alarming
      same := [sa_transition_next, sa_arm_alarm, sa_arm_motion, sa_timeout]
      next := [(sa_arm_off, ss_idle), (sa_arm_reset, ss_reseting),
               (sa_shutdown, ss_before_shutdown), (sa_shutdown_done, ss_before_shutdown)] },
    { state := ss_reseting
      same := [sa_transition_next, sa_arm_reset, sa_timeout]
      next := [(sa_arm_off, ss_idle), (sa_arm_alarm, ss_alarming),
               (sa_arm_motion, ss_scare_setup),
               (sa_shutdown, ss_before_shutdown), (sa_shutdown_done, ss_before_shutdown)] },
    { state := ss_scare_setup
      same := [sa_transition_next, sa_arm_reset, sa_arm_motion]
      next := [(sa_scare_exit, ss_reseting_retry),
               (sa_arm_alarm, ss_scare_step1), (sa_arm_off, ss_scare_step1),
               (sa_shutdown, ss_before_shutdown), (sa_shutdown_done, ss_before_shutdown)] },
    { state := ss_scare_step1
      same := [sa_transition_next, sa_arm_alarm, sa_arm_motion]
      next := [(sa_scare_exit, ss_scare_step3),
               (sa_scare_timeout, ss_scare_step2), (sa_arm_reset, ss_scare_step2),
               (sa_arm_off, ss_scare_step2),
               (sa_shutdown, ss_before_shutdown), (sa_shutdown_done, ss_before_shutdown)] },
    { state := ss_scare_step2
      same := [sa_arm_motion]
      next := [(sa_scare_exit, ss_scare_step3),
               (sa_scare_timeout, ss_scare_step1), (sa_arm_alarm, ss_scare_step1),
               (sa_transition_next, ss_offence), (sa_arm_reset, ss_offence),
               (sa_arm_off, ss_offence),
               (sa_shutdown, ss_before_shutdown), (sa_shutdown_done, ss_before_shutdown)] },
    { state := ss_scare_step3
      same := [sa_scare_exit, sa_transition_next, sa_scare_timeout, sa_arm_alarm, sa_arm_motion]
      next := [(sa_arm_reset, ss_reseting_retry), (sa_arm_off, ss_suspicion_setup),
               (sa_shutdown, ss_before_shutdown), (sa_shutdown_done, ss_before_shutdown)] },
    { state := ss_timeout_then_reset
      same := [sa_transition_next, sa_arm_reset, sa_arm_off]
      next := [(sa_timeout, ss_reseting),
               (sa_arm_alarm, ss_scare_setup), (sa_arm_motion, ss_scare_setup),
               (sa_shutdown, ss_before_shutdown), (sa_shutdown_done, ss_before_shutdown)] },
    { state := ss_reseting_retry
      same := [sa_transition_next, sa_arm_reset, sa_timeout, sa_arm_motion]
      next := [(sa_arm_off, ss_suspicion_setup), (sa_arm_alarm, ss_offence),
               (sa_shutdown, ss_before_shutdown), (sa_shutdown_done, ss_before_shutdown)] },
    { state := ss_offence
      same := [sa_transition_next, sa_arm_alarm, sa_arm_motion, sa_arm_off, sa_timeout]
      next := [(sa_arm_reset, ss_timeout_then_reset),
               (sa_shutdown, ss_before_shutdown), (sa_shutdown_done, ss_before_shutdown)] },
    { state := ss_suspicion_setup
      same := [sa_transition_next, sa_arm_off, sa_arm_reset]
      next := [(sa_suspicion_timeout, ss_suspicion_step1),
               (sa_suspicion_exit, ss_slow_finger_step2),
               (sa_arm_alarm, ss_slow_finger_setup), (sa_arm_motion, ss_slow_finger_setup),
               (sa_shutdown, ss_before_shutdown), (sa_shutdown_done, ss_before_shutdown)] },
    { state := ss_suspicion_step1
      same := [sa_transition_next, sa_arm_off, sa_arm_reset]
      next := [(sa_suspicion_timeout, ss_suspicion_step2),
               (sa_suspicion_exit, ss_slow_finger_step2),
               (sa_arm_alarm, ss_slow_finger_setup), (sa_arm_motion, ss_slow_finger_setup),
               (sa_shutdown, ss_before_shutdown), (sa_shutdown_done, ss_before_shutdown)] },
    { state := ss_suspicion_step2
      same := [sa_transition_next, sa_arm_off, sa_arm_reset]
      next := [(sa_suspicion_timeout, ss_suspicion_step3),
               (sa_suspicion_exit, ss_slow_finger_step2),
               (sa_arm_alarm, ss_slow_finger_setup), (sa_arm_motion, ss_slow_finger_setup),
               (sa_shutdown, ss_before_shutdown), (sa_shutdown_done, ss_before_shutdown)] },
    { state := ss_suspicion_step3
      same := [sa_transition_next, sa_arm_reset, sa_suspicion_timeout]
      next := [(sa_suspicion_exit, ss_slow_finger_step2), (sa_arm_off, ss_suspicion_setup),
               (sa_arm_alarm, ss_slow_finger_setup), (sa_arm_motion, ss_slow_finger_setup),
               (sa_shutdown, ss_before_shutdown), (sa_shutdown_done, ss_before_shutdown)] },
    { state := ss_slow_finger_setup
      same := [sa_transition_next, sa_arm_alarm, sa_arm_motion, sa_arm_off]
      next := [(sa_slowfinger_timeout, ss_slow_finger_step1),
               (sa_arm_reset, ss_slow_finger_step2),
               (sa_shutdown, ss_before_shutdown), (sa_shutdown_done, ss_before_shutdown)] },
    { state := ss_slow_finger_step1
      same := [sa_transition_next, sa_arm_alarm, sa_arm_motion, sa_arm_off]
      next := [(sa_slowfinger_timeout, ss_slow_finger_setup),
               (sa_arm_reset, ss_slow_finger_step2),
               (sa_shutdown, ss_before_shutdown), (sa_shutdown_done, ss_before_shutdown)] },
    { state := ss_slow_finger_step2
      same := [sa_transition_next, sa_arm_reset, sa_slowfinger_timeout]
      next := [(sa_arm_alarm, ss_scare_setup), (sa_arm_motion, ss_scare_setup),
               (sa_arm_off, ss_timeout_then_reset),
               (sa_shutdown, ss_before_shutdown), (sa_shutdown_done, ss_before_shutdown)] },
    { state := ss_before_shutdown
      same := [sa_transition_next, sa_arm_reset, sa_arm_alarm, sa_arm_motion, sa_arm_off,
               sa_shutdown, sa_timeout]
      next := [(sa_shutdown_done, ss_shutdown)] } ]

/-- Lookup in the specification's table: `some t` when the pair is listed with
target `t` (the state itself for a same-state entry), `none` when the pair is
not listed. -/
def spec_table (s : statemachine_states_t) (a : statemachine_actions_t) :
    Option statemachine_states_t :=
  match spec_table_rows.find? (fun r => decide (r.state = s)) with
  | none => none
  | some r => if a ∈ r.same then some s else r.next.lookup a

/-- Deliver a sequence of stimuli one after the other, each as the timers and
the sensor callbacks of main.c do: `statemachine_next_state(action, NULL)`. -/
def run (m : Machine) (actions : List statemachine_actions_t) : Machine :=
  actions.foldl (fun m a => (statemachine_next_state m a none).m) m

/-- A machine in state `s` with two registered clients, at the addresses 200
(id 1, head of the list) and 100 (id 0), both with their flag clear. -/
def sample_machine (s : statemachine_states_t) : Machine :=
  { state := s
    sscids_head := [200, 100]
    sscid_count := 2
    sscid_uniqueid := 2
    mem := fun p =>
      if p = 200 then { id := 1, state_haschanged := false }
      else { id := 0, state_haschanged := false } }

/-- The capacity bound `#define statemachine_CLIENT_MAXCOUNT 10`. -/
def statemachine_CLIENT_MAXCOUNT : Int := 10

/-- The errno.h code `ENOMEM` (Linux value), what `malloc` leaves in `errno`
when it returns NULL. -/
def ENOMEM : Int := 12

/-- Reduction of an integer to the range of a 32-bit `int`, two's complement.
`sscid_uniqueid++` is taken through it: the counter grows by one with every
registration and is never reset (C leaves the overflow undefined; the
compiled code wraps). `sscid_count` is kept exact: it moves by one inside
0..10 in every reachable machine. -/
def wrap_int (x : Int) : Int :=
  (x + 2147483648) % 4294967296 - 2147483648

/-- The C function `statemachine_init`. `malloc_ok` tells whether the
allocation of the list entry succeeds. The result is `none` when the
`assert` on the capacity fails and the process is aborted (the program is
built with assertions enabled, no `NDEBUG`). -/
def statemachine_init (m : Machine) (pcid : Ptr) (malloc_ok : Bool) :
    Option (Int × Machine) :=
  if ¬ (m.sscid_count < statemachine_CLIENT_MAXCOUNT) then none
  else
    -- we init for first use
    let m0 : Machine :=
      if m.sscid_count ≤ 0 then { m with state := ss_powerup, sscids_head := [] } else m
    if malloc_ok then
      some (EOK,
        { m0 with
          mem := Function.update m0.mem pcid
            { id := m0.sscid_uniqueid, state_haschanged := true }
          sscids_head := pcid :: m0.sscids_head
          sscid_uniqueid := wrap_int (m0.sscid_uniqueid + 1)
          sscid_count := m0.sscid_count + 1 })
    else
      -- entry malloc failed: ret = errno
      some (ENOMEM, m0)

/-- The search loop of `statemachine_fini` (`SLIST_FOREACH_SAFE` with
`SLIST_REMOVE` and `break`): the list without the first entry whose client
carries the identifier `id`, or `none` when no entry matches. -/
def fini_remove (mem : Ptr → statemachine_cid) (id : Int) : List Ptr → Option (List Ptr)
  | [] => none
  | q :: rest =>
    if (mem q).id = id then some rest
    else (fini_remove mem id rest).map (fun l => q :: l)

/-- The C function `statemachine_fini`. -/
def statemachine_fini (m : Machine) (pcid : Ptr) : Int × Machine :=
  let ret := EAGAIN
  let m1 : Machine :=
    match fini_remove m.mem (m.mem pcid).id m.sscids_head with
    | some l => { m with sscids_head := l, sscid_count := m.sscid_count - 1 }
    | none => m
  -- did we remove successfully?
  let ret := if (fini_remove m.mem (m.mem pcid).id m.sscids_head).isSome then EOK else ret
  -- is statemachine now terminated?
  let m2 : Machine := if m1.sscid_count ≤ 0 then { m1 with state := ss_shutdown } else m1
  (ret, m2)

/-- The C function `statemachine_set_state_change_forclient_nolock`: raise the
flag of the given client and broadcast; the value returned is that of
`pthread_cond_broadcast`, 0. -/
def statemachine_set_state_change_forclient_nolock (m : Machine) (pcid : Ptr) :
    Int × Machine :=
  (0, { m with mem := set_haschanged m.mem pcid })

/-- The C function `statemachine_cancel_waitfor`. -/
def statemachine_cancel_waitfor (m : Machine) (pcid : Ptr) : Int × Machine :=
  statemachine_set_state_change_forclient_nolock m pcid

/-- The machine at program start: the static initialisers of statemachine.c
(`state = ss_shutdown`, both counters 0, the list head zero-initialised),
over an arbitrary content of the callers' records. -/
def initial_machine (mem : Ptr → statemachine_cid) : Machine :=
  { state := ss_shutdown
    sscids_head := []
    sscid_count := 0
    sscid_uniqueid := 0
    mem := mem }

/-- One call of the API of statemachine.h, as issued by some thread. -/
inductive Op where
  | init (pcid : Ptr) (malloc_ok : Bool)
  | fini (pcid : Ptr)
  | stimulate (action : statemachine_actions_t)
  | wait (pcid : Ptr)
  | cancel (pcid : Ptr)
  deriving DecidableEq, Repr

/-- The machine after one completed call; `none` when the call does not
complete (the capacity `assert` aborts, or the wait blocks). -/
def step (m : Machine) : Op → Option Machine
  | Op.init p ok => (statemachine_init m p ok).map (fun r => r.2)
  | Op.fini p => some (statemachine_fini m p).2
  | Op.stimulate a => some (statemachine_next_state m a none).m
  | Op.wait p => (statemachine_wait_state_change m p).map (fun r => r.2.2)
  | Op.cancel p => some (statemachine_cancel_waitfor m p).2

/-- The machine after a sequence of completed calls, in the order in which
the mutex serialises them. -/
def exec (m : Machine) : List Op → Option Machine
  | [] => some m
  | op :: ops =>
    match step m op with
    | none => none
    | some m1 => exec m1 ops

/-- The identifiers handed out along an execution, oldest first: for every
registration that returned `EOK`, the `id` found in the client's record after
the call. -/
def assigned_ids (m : Machine) : List Op → List Int
  | [] => []
  | op :: ops =>
    match step m op with
    | none => []
    | some m1 =>
      match op with
      | Op.init p true => (m1.mem p).id :: assigned_ids m1 ops
      | _ => assigned_ids m1 ops

/-- No registration of the execution passes a record that is in the registry
at that moment. -/
def fresh_inits (m : Machine) : List Op → Bool
  | [] => true
  | op :: ops =>
    (match op with
      | Op.init p _ => decide (p ∉ m.sscids_head)
      | _ => true)
    && (match step m op with
      | none => true
      | some m1 => fresh_inits m1 ops)

/-- The identifiers of the registered clients, in registry order. -/
def registered_ids (m : Machine) : List Int :=
  m.sscids_head.map (fun p => (m.mem p).id)

/-- Some call of the sequence of stimuli changes the current state. -/
def has_real_transition (m : Machine) : List statemachine_actions_t → Bool
  | [] => false
  | a :: l =>
    decide ((statemachine_next_state m a none).m.state ≠ m.state)
      || has_real_transition (statemachine_next_state m a none).m l

/-- Callers' memory in which every record reads id 0 with the flag clear. -/
def sample_mem : Ptr → statemachine_cid :=
  fun _ => { id := 0, state_haschanged := false }

/-- Ten registrations of ten different records, all with a successful
allocation. -/
def ten_inits : List Op :=
  [Op.init 1 true, Op.init 2 true, Op.init 3 true, Op.init 4 true, Op.init 5 true,
   Op.init 6 true, Op.init 7 true, Op.init 8 true, Op.init 9 true, Op.init 10 true]

/-- The machine reached from program start by `ten_inits`. -/
def full_machine : Machine :=
  (exec (initial_machine sample_mem) ten_inits).getD (initial_machine sample_mem)

/-- A client that registers and deregisters `n` times in a row. -/
def churn : Nat → List Op
  | 0 => []
  | n + 1 => Op.init 100 true :: Op.fini 100 :: churn n

/-- Two clients register, a stimulus arrives, the first client leaves and a
third one registers. -/
def sample_ops : List Op :=
  [Op.init 100 true, Op.init 200 true, Op.stimulate sa_arm_off, Op.fini 100,
   Op.init 300 true]

/-- The machine reached from program start by `sample_ops`. -/
def sample_ops_machine : Machine :=
  (exec (initial_machine sample_mem) sample_ops).getD (initial_machine sample_mem)

/-! ### main.c: the box

The globals of main.c (`box_swstates`, `arm_movement_state`) and the three
motor output pins are the fields of `World`, next to the state machine. The
ghost field `log` records, in order, the calls the code of main.c makes to its
collaborators. What the environment supplies to a function is an argument of
it: the level read from a pin, the value returned by `rand()`, the success of
a `malloc`. -/

/-- The type `arm_movement_state_t` of main.c. -/
inductive arm_movement_state_t where
  | am_idle
  | am_fwd
  | am_bwd
  deriving DecidableEq, Repr

open arm_movement_state_t

/-- The switch readings of `box_swstates_t` (main.c); the mutex is not data. -/
structure box_swstates_t where
  int_switch1 : Bool
  ext_switch1 : Bool
  deriving DecidableEq, Repr

/-- The record `state_timer_action_t` of main.c. -/
structure state_timer_action_t where
  usec : Int
  action : statemachine_actions_t
  deriving DecidableEq, Repr

/-- A call made by the code of main.c, as recorded in the ghost log. -/
inductive Call where
  /-- entry into `arm_movement_stop` -/
  | arm_stop
  /-- entry into `arm_movement_forward` -/
  | arm_forward
  /-- entry into `arm_movement_backward` -/
  | arm_backward
  /-- the two `digitalRead`s of `set_box_swstate` -/
  | sample
  /-- a call of usleep with this duration -/
  | usleep (usec : Int)
  /-- a detached thread running `timer_action_entry` on this record -/
  | timer (t : state_timer_action_t)
  /-- a call of `statemachine_next_state` with this action -/
  | stimulus (a : statemachine_actions_t)
  deriving DecidableEq, Repr

/-- The state of the program: the state machine, the globals of main.c, the
output pins `FINGER_MTR_EN`, `FINGER_MTR_IN1`, `FINGER_MTR_IN2` (true is
HIGH), and the ghost log. -/
structure World where
  m : Machine
  box_swstates : box_swstates_t
  arm_movement_state : arm_movement_state_t
  pin_mtr_en : Bool
  pin_mtr_in1 : Bool
  pin_mtr_in2 : Bool
  log : List Call

def ARM_MOVEMENT_FWD_OVERRUN_USEC : Int := 200000
def STATE_SCARE1_VIB_USEC : Int := 500000
def STATE_SCARE2_VIB_USEC : Int := 500000
def STATE_SCARE_EXIT_USEC : Int := 3000000
def STATE_TIMEOUT_RESET_USEC : Int := 10000000
def STATE_SUSPICION_EXIT_USEC : Int := 45000000
def STATE_SUSPICION_PEEK_MIN_USEC : Int := 1000000
def STATE_SUSPICION_PEEK_MAX_USEC : Int := 12000000
def STATE_SUSPICION_PEEK_OPEN_MIN_USEC : Int := 400000
def STATE_SUSPICION_PEEK_OPEN_MAX_USEC : Int := 600000
def STATE_SUSPICION_PEEK_LEN_MIN_USEC : Int := 1000000
def STATE_SUSPICION_PEEK_LEN_MAX_USEC : Int := 3000000
def STATE_SLOWFINGER_DUTYFULL_USEC : Int := 200000
def STATE_SLOWFINGER_DUTYON_USEC : Int := 100000
def STATE_SLOWFINGER_DUTYOFF_USEC : Int :=
  STATE_SLOWFINGER_DUTYFULL_USEC - STATE_SLOWFINGER_DUTYON_USEC

/-- The C function `get_random_number`, with the value `rand` returned by
`rand()` as an argument. `int` arithmetic is reduced by `wrap_int`, `%` is
the truncating remainder of C, and a zero divisor gives `none`. -/
def get_random_number (rand : Int) (min_num max_num : Int) : Option Int :=
  let low_num := if min_num < max_num then min_num else wrap_int (max_num + 1)
  let hi_num := if min_num < max_num then wrap_int (max_num + 1) else min_num
  let divisor := wrap_int (hi_num - low_num)
  if divisor = 0 then none
  else some (wrap_int (Int.tmod rand divisor + low_num))

/-- A call `statemachine_next_state(a, NULL)` made from main.c. -/
def world_next_state (w : World) (a : statemachine_actions_t) : World :=
  { w with
    m := (statemachine_next_state w.m a none).m
    log := w.log ++ [Call.stimulus a] }

/-- The C function `arm_movement_stop`. -/
def arm_movement_stop (w : World) : World :=
  { w with
    log := w.log ++ [Call.arm_stop]
    pin_mtr_en := false
    arm_movement_state := am_idle }

/-- The C function `arm_movement_forward`. -/
def arm_movement_forward (w : World) : World :=
  { w with
    log := w.log ++ [Call.arm_forward]
    pin_mtr_in1 := false
    pin_mtr_in2 := true
    pin_mtr_en := true
    arm_movement_state := am_fwd }

/-- The C function `arm_movement_backward`. -/
def arm_movement_backward (w : World) : World :=
  let w := { w with log := w.log ++ [Call.arm_backward] }
  if w.box_swstates.int_switch1 = false then
    { w with
      pin_mtr_in1 := true
      pin_mtr_in2 := false
      pin_mtr_en := true
      arm_movement_state := am_bwd }
  else
    -- arm movement skipped
    if w.box_swstates.ext_switch1 = true then world_next_state w sa_arm_alarm
    else world_next_state w sa_arm_off

/-- The C function `set_box_swstate`; `pin_int` and `pin_ext` are the levels
that `digitalRead` returns for `BOX_INT_SWITCH1` and `BOX_EXT_SWITCH1`. -/
def set_box_swstate (w : World) (pin_int pin_ext : Bool) : World :=
  let w :=
    if w.arm_movement_state = am_fwd then
      { w with log := w.log ++ [Call.usleep ARM_MOVEMENT_FWD_OVERRUN_USEC] }
    else w
  let w := { w with log := w.log ++ [Call.sample] }
  let bss_tmp : box_swstates_t := { int_switch1 := pin_int, ext_switch1 := pin_ext }
  -- only issue state changes if we had changes!
  if bss_tmp.int_switch1 ≠ w.box_swstates.int_switch1
      ∨ bss_tmp.ext_switch1 ≠ w.box_swstates.ext_switch1 then
    let w := { w with box_swstates := bss_tmp }
    let w :=
      if w.box_swstates.int_switch1 = false ∧ w.box_swstates.ext_switch1 = false then
        world_next_state w sa_arm_reset
      else w
    let w :=
      if w.box_swstates.int_switch1 = true ∧ w.box_swstates.ext_switch1 = true then
        world_next_state w sa_arm_alarm
      else w
    let w :=
      if w.box_swstates.int_switch1 = false ∧ w.box_swstates.ext_switch1 = true then
        world_next_state w sa_arm_motion
      else w
    let w :=
      if w.box_swstates.int_switch1 = true ∧ w.box_swstates.ext_switch1 = false then
        world_next_state w sa_arm_off
      else w
    w
  else w

/-- The C function `timer_action_entry`, after its `usleep`: the deferred
stimulus of a timer record. -/
def timer_action_entry (w : World) (t : state_timer_action_t) : World :=
  world_next_state w t.action

/-- The C function `setup_timer_action`; `malloc_ok` tells whether the
allocation of the timer record succeeds. On success a detached thread is
started on the record; on failure `errno` is returned and no timer exists. -/
def setup_timer_action (w : World) (usec : Int) (action : statemachine_actions_t)
    (malloc_ok : Bool) : Int × World :=
  if malloc_ok then
    (EOK, { w with log := w.log ++ [Call.timer { usec := usec, action := action }] })
  else (ENOMEM, w)

/-- What the environment supplies to one pass of the loop of
`statemachine_thread_entry`: the value of `rand()`, the success of the first
and of the second `malloc`, and the levels of the two switch pins. -/
structure thread_inputs where
  rand : Int
  malloc1 : Bool
  malloc2 : Bool
  pin_int : Bool
  pin_ext : Bool

/-- The locals of `statemachine_thread_entry` and the world after one pass of
its loop. -/
structure thread_result where
  w : World
  current_state : statemachine_states_t
  finished : Bool

/-- The `switch (current_state)` of the loop of `statemachine_thread_entry`
(main.c lines 335-499), run on the state that
`statemachine_wait_state_change` delivered. -/
def statemachine_thread_entry_switch (w : World) (current_state : statemachine_states_t)
    (i : thread_inputs) : Option thread_result :=
  match current_state with
  | ss_idle =>
    some { w := arm_movement_stop w, current_state := current_state, finished := false }
  | ss_powerup =>
    some { w := set_box_swstate w i.pin_int i.pin_ext, current_state := current_state,
           finished := false }
  | ss_alarming =>
    some { w := arm_movement_forward w, current_state := current_state, finished := false }
  | ss_reseting =>
    some { w := arm_movement_backward w, current_state := current_state, finished := false }
  | ss_scare_setup =>
    let w := (setup_timer_action w STATE_SCARE_EXIT_USEC sa_scare_exit i.malloc1).2
    let w :=
      if w.box_swstates.int_switch1 = false then arm_movement_backward w
      else arm_movement_forward w
    some { w := w, current_state := current_state, finished := false }
  | ss_scare_step1 =>
    let w := (setup_timer_action w STATE_SCARE1_VIB_USEC sa_scare_timeout i.malloc1).2
    some { w := arm_movement_forward w, current_state := current_state, finished := false }
  | ss_scare_step2 =>
    let w := (setup_timer_action w STATE_SCARE2_VIB_USEC sa_scare_timeout i.malloc1).2
    some { w := arm_movement_backward w, current_state := current_state, finished := false }
  | ss_scare_step3 =>
    some { w := arm_movement_forward w, current_state := current_state, finished := false }
  | ss_timeout_then_reset =>
    let w := (setup_timer_action w STATE_TIMEOUT_RESET_USEC sa_timeout i.malloc1).2
    some { w := arm_movement_stop w, current_state := current_state, finished := false }
  | ss_reseting_retry =>
    some { w := arm_movement_backward w, current_state := current_state, finished := false }
  | ss_offence =>
    some { w := arm_movement_forward w, current_state := current_state, finished := false }
  | ss_suspicion_setup =>
    let w := (setup_timer_action w STATE_SUSPICION_EXIT_USEC sa_suspicion_exit i.malloc1).2
    match get_random_number i.rand STATE_SUSPICION_PEEK_MIN_USEC
        STATE_SUSPICION_PEEK_MAX_USEC with
    | none => none
    | some usec =>
      let w := (setup_timer_action w usec sa_suspicion_timeout i.malloc2).2
      some { w := arm_movement_stop w, current_state := current_state, finished := false }
  | ss_suspicion_step1 =>
    match get_random_number i.rand STATE_SUSPICION_PEEK_OPEN_MIN_USEC
        STATE_SUSPICION_PEEK_OPEN_MAX_USEC with
    | none => none
    | some usec =>
      let w := (setup_timer_action w usec sa_suspicion_timeout i.malloc1).2
      some { w := arm_movement_forward w, current_state := current_state, finished := false }
  | ss_suspicion_step2 =>
    match get_random_number i.rand STATE_SUSPICION_PEEK_LEN_MIN_USEC
        STATE_SUSPICION_PEEK_LEN_MAX_USEC with
    | none => none
    | some usec =>
      let w := (setup_timer_action w usec sa_suspicion_timeout i.malloc1).2
      some { w := arm_movement_stop w, current_state := current_state, finished := false }
  | ss_suspicion_step3 =>
    some { w := arm_movement_backward w, current_state := current_state, finished := false }
  | ss_slow_finger_setup =>
    let w := (setup_timer_action w STATE_SLOWFINGER_DUTYON_USEC sa_slowfinger_timeout
      i.malloc1).2
    some { w := arm_movement_forward w, current_state := current_state, finished := false }
  | ss_slow_finger_step1 =>
    let w := (setup_timer_action w STATE_SLOWFINGER_DUTYOFF_USEC sa_slowfinger_timeout
      i.malloc1).2
    some { w := arm_movement_stop w, current_state := current_state, finished := false }
  | ss_slow_finger_step2 =>
    some { w := arm_movement_backward w, current_state := current_state, finished := false }
  | ss_before_shutdown =>
    let w := arm_movement_stop w
    -- statemachine_next_state(sa_shutdown_done, &current_state)
    let r := statemachine_next_state w.m sa_shutdown_done (some current_state)
    some { w := { w with m := r.m, log := w.log ++ [Call.stimulus sa_shutdown_done] }
           current_state := r.pnew_state.getD current_state
           finished := false }
  | ss_shutdown =>
    some { w := w, current_state := current_state, finished := true }
  -- `default:` unknown state
  | _ => some { w := w, current_state := current_state, finished := false }

/-- The calls made by one pass of the loop on the observed state `s`: the log
left by the switch when started with an empty log. -/
def pass_calls (w : World) (s : statemachine_states_t) (i : thread_inputs) :
    Option (List Call) :=
  (statemachine_thread_entry_switch { w with log := [] } s i).map (fun r => r.w.log)

/-- The timer records among a list of calls, in order. -/
def armed_timers (l : List Call) : List state_timer_action_t :=
  l.filterMap (fun c => match c with
    | Call.timer t => some t
    | _ => none)

/-- The motor commands among a list of calls, in order. -/
def motor_calls (l : List Call) : List Call :=
  l.filter (fun c => match c with
    | Call.arm_stop => true
    | Call.arm_forward => true
    | Call.arm_backward => true
    | _ => false)

/-- The stimuli among a list of calls, in order. -/
def stimuli (l : List Call) : List statemachine_actions_t :=
  l.filterMap (fun c => match c with
    | Call.stimulus a => some a
    | _ => none)

/-- The timers of section 4.4 of the specification, state by state: the
action and the bounds, in microseconds, of the delay (equal bounds for a
fixed delay). States that section 4.4 gives no timer have the empty list. -/
def spec_timers : statemachine_states_t → List (statemachine_actions_t × Int × Int)
  | ss_scare_setup => [(sa_scare_exit, 3000000, 3000000)]
  | ss_scare_step1 => [(sa_scare_timeout, 500000, 500000)]
  | ss_scare_step2 => [(sa_scare_timeout, 500000, 500000)]
  | ss_timeout_then_reset => [(sa_timeout, 10000000, 10000000)]
  | ss_suspicion_setup =>
    [(sa_suspicion_exit, 45000000, 45000000), (sa_suspicion_timeout, 1000000, 12000000)]
  | ss_suspicion_step1 => [(sa_suspicion_timeout, 400000, 600000)]
  | ss_suspicion_step2 => [(sa_suspicion_timeout, 1000000, 3000000)]
  | ss_slow_finger_setup => [(sa_slowfinger_timeout, 100000, 100000)]
  | ss_slow_finger_step1 => [(sa_slowfinger_timeout, 100000, 100000)]
  | _ => []

/-- The motor command of section 4.4 of the specification, state by state;
`int_low` tells whether the stored internal switch reading is low. Powerup
and Shutdown have none. -/
def spec_motor (s : statemachine_states_t) (int_low : Bool) : List Call :=
  match s with
  | ss_idle | ss_timeout_then_reset | ss_suspicion_setup | ss_suspicion_step2
  | ss_slow_finger_step1 | ss_before_shutdown => [Call.arm_stop]
  | ss_alarming | ss_scare_step1 | ss_scare_step3 | ss_offence | ss_suspicion_step1
  | ss_slow_finger_setup => [Call.arm_forward]
  | ss_reseting | ss_scare_step2 | ss_reseting_retry | ss_suspicion_step3
  | ss_slow_finger_step2 => [Call.arm_backward]
  | ss_scare_setup => if int_low then [Call.arm_backward] else [Call.arm_forward]
  | _ => []

/-- A world around `sample_machine s`: both stored switch readings as given,
the motor idle, all pins low, an empty log. -/
def sample_world (s : statemachine_states_t) (int_switch1 ext_switch1 : Bool) : World :=
  { m := sample_machine s
    box_swstates := { int_switch1 := int_switch1, ext_switch1 := ext_switch1 }
    arm_movement_state := am_idle
    pin_mtr_en := false
    pin_mtr_in1 := false
    pin_mtr_in2 := false
    log := [] }

/-- Inputs of a pass in which `rand()` returns `rand`, both allocations
succeed and both switch pins read low. -/
def sample_inputs (rand : Int) : thread_inputs :=
  { rand := rand, malloc1 := true, malloc2 := true, pin_int := false, pin_ext := false }

/-- The action that section 4.4 of the specification gives for a pair of
sensor readings (internal, external), true being high: both low is ArmReset,
both high is ArmAlarm, internal low with external high is ArmMotion, internal
high with external low is ArmOff. -/
def spec_sensor_action : Bool → Bool → statemachine_actions_t
  | false, false => sa_arm_reset
  | true, true => sa_arm_alarm
  | false, true => sa_arm_motion
  | true, false => sa_arm_off

/-- The constant `RAND_MAX` of the C library's stdlib.h (glibc value): the
largest value `rand()` returns. -/
def RAND_MAX : Int := 2147483647

/-- The divisor `hi_num - low_num` of the remainder in `get_random_number`,
as an `int`. -/
def get_random_number_divisor (min_num max_num : Int) : Int :=
  let low_num := if min_num < max_num then min_num else wrap_int (max_num + 1)
  let hi_num := if min_num < max_num then wrap_int (max_num + 1) else min_num
  wrap_int (hi_num - low_num)

/-- The number of values `r` of `rand()` in 0..`R` for which
`get_random_number(min_num, max_num)` returns `v`; `R` stands for the
`RAND_MAX` of the C library. -/
def rand_count (R : Nat) (min_num max_num v : Int) : Nat :=
  Nat.count (fun r : Nat => get_random_number (r : Int) min_num max_num = some v) (R + 1)

/-- The C function `init_box_swstate`: both stored readings low (the mutex is
not data). -/
def init_box_swstate (w : World) : World :=
  { w with box_swstates := { int_switch1 := false, ext_switch1 := false } }

/-- Every registration of the list of calls has a successful allocation. -/
def allocs_succeed : List Op → Bool
  | [] => true
  | Op.init _ ok :: ops => ok && allocs_succeed ops
  | _ :: ops => allocs_succeed ops

/-- A sequence of actions that leads from Powerup to the state `s`. -/
def path_to : statemachine_states_t → List statemachine_actions_t
  | ss_idle => [sa_arm_off]
  | ss_powerup => []
  | ss_alarming => [sa_arm_alarm]
  | ss_reseting => [sa_arm_reset]
  | ss_before_shutdown => [sa_shutdown]
  | ss_shutdown => [sa_shutdown, sa_shutdown_done]
  | ss_scare_setup => [sa_arm_reset, sa_arm_motion]
  | ss_scare_step1 => [sa_arm_reset, sa_arm_motion, sa_arm_alarm]
  | ss_scare_step2 => [sa_arm_reset, sa_arm_motion, sa_arm_alarm, sa_scare_timeout]
  | ss_scare_step3 => [sa_arm_reset, sa_arm_motion, sa_arm_alarm, sa_scare_exit]
  | ss_timeout_then_reset =>
    [sa_arm_reset, sa_arm_motion, sa_scare_exit, sa_arm_alarm, sa_arm_reset]
  | ss_reseting_retry => [sa_arm_reset, sa_arm_motion, sa_scare_exit]
  | ss_offence => [sa_arm_reset, sa_arm_motion, sa_scare_exit, sa_arm_alarm]
  | ss_suspicion_setup => [sa_arm_reset, sa_arm_motion, sa_scare_exit, sa_arm_off]
  | ss_suspicion_step1 =>
    [sa_arm_reset, sa_arm_motion, sa_scare_exit, sa_arm_off, sa_suspicion_timeout]
  | ss_suspicion_step2 =>
    [sa_arm_reset, sa_arm_motion, sa_scare_exit, sa_arm_off, sa_suspicion_timeout,
     sa_suspicion_timeout]
  | ss_suspicion_step3 =>
    [sa_arm_reset, sa_arm_motion, sa_scare_exit, sa_arm_off, sa_suspicion_timeout,
     sa_suspicion_timeout, sa_suspicion_timeout]
  | ss_slow_finger_setup =>
    [sa_arm_reset, sa_arm_motion, sa_scare_exit, sa_arm_off, sa_arm_alarm]
  | ss_slow_finger_step1 =>
    [sa_arm_reset, sa_arm_motion, sa_scare_exit, sa_arm_off, sa_arm_alarm,
     sa_slowfinger_timeout]
  | ss_slow_finger_step2 =>
    [sa_arm_reset, sa_arm_motion, sa_scare_exit, sa_arm_off, sa_suspicion_exit]
  | ss_END => []

theorem next_state_ret (m : Machine) (a : statemachine_actions_t)
    (pn : Option statemachine_states_t) :
    (statemachine_next_state m a pn).ret = (statemachine_next_state_switch m.state a).2 := rfl

theorem next_state_pnew (m : Machine) (a : statemachine_actions_t)
    (pn : Option statemachine_states_t) :
    (statemachine_next_state m a pn).pnew_state
      = pn.map (fun _ => (statemachine_next_state_switch m.state a).1) := rfl

theorem next_state_m_indep (m : Machine) (a : statemachine_actions_t)
    (pn : Option statemachine_states_t) :
    (statemachine_next_state m a pn).m = (statemachine_next_state m a none).m := rfl

theorem next_state_m_of_same (m : Machine) (a : statemachine_actions_t)
    (pn : Option statemachine_states_t)
    (h : (statemachine_next_state_switch m.state a).1 = m.state) :
    (statemachine_next_state m a pn).m = m := by
  simp [statemachine_next_state, statemachine_get_current_state_nolock, h]

theorem next_state_m_of_change (m : Machine) (a : statemachine_actions_t)
    (pn : Option statemachine_states_t)
    (h : (statemachine_next_state_switch m.state a).1 ≠ m.state) :
    (statemachine_next_state m a pn).m
      = statemachine_set_state_change_nolock m (statemachine_next_state_switch m.state a).1 := by
  simp [statemachine_next_state, statemachine_get_current_state_nolock, Ne.symm h]

theorem next_state_m_state (m : Machine) (a : statemachine_actions_t)
    (pn : Option statemachine_states_t) :
    (statemachine_next_state m a pn).m.state = (statemachine_next_state_switch m.state a).1 := by
  by_cases h : (statemachine_next_state_switch m.state a).1 = m.state
  · rw [next_state_m_of_same m a pn h, h]
  · rw [next_state_m_of_change m a pn h]; rfl

theorem switch_listed (s : statemachine_states_t) (a : statemachine_actions_t) :
    spec_table s a = none ∨ spec_table s a = some (statemachine_next_state_switch s a).1 := by
  cases s <;> cases a <;> decide

theorem switch_unlisted (s : statemachine_states_t) (a : statemachine_actions_t) :
    s = ss_shutdown ∨ spec_table s a ≠ none
      ∨ statemachine_next_state_switch s a = (s, EINVAL) := by
  cases s <;> cases a <;> decide

/-- C1. Table completeness: for every pair (state, action) that the table of
section 4.2 lists with target `t` (the rows are the 19 non-terminal states), a
call of `statemachine_next_state` with the machine in that state stores `t`
through `pnew_state` and leaves the current state equal to `t`. -/
theorem C1_table_completeness (m : Machine) (a : statemachine_actions_t)
    (t v : statemachine_states_t) (h : spec_table m.state a = some t) :
    (statemachine_next_state m a (some v)).pnew_state = some t
      ∧ (statemachine_next_state m a (some v)).m.state = t := by
  have ht : (statemachine_next_state_switch m.state a).1 = t := by
    rcases switch_listed m.state a with h0 | h1
    · rw [h0] at h; cases h
    · rw [h1] at h; exact Option.some.inj h
  refine ⟨?_, ?_⟩
  · rw [next_state_pnew, ht]; rfl
  · rw [next_state_m_state, ht]

/-- C1 at the pair ScareSetup, ArmAlarm of the specification's scenario 3. -/
theorem C1_table_completeness_witness :
    spec_table (sample_machine ss_scare_setup).state sa_arm_alarm = some ss_scare_step1
      ∧ (statemachine_next_state (sample_machine ss_scare_setup) sa_arm_alarm
            (some ss_powerup)).pnew_state = some ss_scare_step1
      ∧ (statemachine_next_state (sample_machine ss_scare_setup) sa_arm_alarm
            (some ss_powerup)).m.state = ss_scare_step1 :=
  ⟨by decide,
    C1_table_completeness (sample_machine ss_scare_setup) sa_arm_alarm ss_scare_step1
      ss_powerup (by decide)⟩

/-- C2. Table exclusivity: in a non-terminal state, an action that the table
of section 4.2 does not list for that state makes `statemachine_next_state`
return `EINVAL`, store the unchanged state through `pnew_state`, and leave the
whole machine as it was: the current state and every client's flag. -/
theorem C2_table_exclusivity (m : Machine) (a : statemachine_actions_t)
    (pn : Option statemachine_states_t)
    (hs : m.state ≠ ss_shutdown) (h : spec_table m.state a = none) :
    (statemachine_next_state m a pn).ret = EINVAL
      ∧ (statemachine_next_state m a pn).pnew_state = pn.map (fun _ => m.state)
      ∧ (statemachine_next_state m a pn).m = m := by
  have hsw : statemachine_next_state_switch m.state a = (m.state, EINVAL) := by
    rcases switch_unlisted m.state a with h0 | h1 | h2
    · exact absurd h0 hs
    · exact absurd h h1
    · exact h2
  refine ⟨?_, ?_, ?_⟩
  · rw [next_state_ret, hsw]
  · rw [next_state_pnew, hsw]
  · exact next_state_m_of_same m a pn (by rw [hsw])

/-- C2 at the unlisted pair Idle, ScareTimeout. -/
theorem C2_table_exclusivity_witness :
    (sample_machine ss_idle).state ≠ ss_shutdown
      ∧ spec_table (sample_machine ss_idle).state sa_scare_timeout = none
      ∧ (statemachine_next_state (sample_machine ss_idle) sa_scare_timeout
            (some ss_powerup)).ret = EINVAL
      ∧ (statemachine_next_state (sample_machine ss_idle) sa_scare_timeout
            (some ss_powerup)).pnew_state
          = (some ss_powerup).map (fun _ => (sample_machine ss_idle).state)
      ∧ (statemachine_next_state (sample_machine ss_idle) sa_scare_timeout
            (some ss_powerup)).m = sample_machine ss_idle :=
  ⟨by decide, by decide,
    C2_table_exclusivity (sample_machine ss_idle) sa_scare_timeout (some ss_powerup)
      (by decide) (by decide)⟩

/-- C3, evaluated on the code: for the listed pair Powerup, ArmOff (a
transition the table defines, to Idle) the call succeeds in changing the state
yet returns `EAGAIN`, the value `ret` is initialised with, not `EOK`; no
branch of the function ever stores `EOK`. -/
theorem C3_success_returns_EAGAIN :
    spec_table ss_powerup sa_arm_off = some ss_idle
      ∧ (statemachine_next_state (sample_machine ss_powerup) sa_arm_off none).m.state = ss_idle
      ∧ (statemachine_next_state (sample_machine ss_powerup) sa_arm_off none).ret = EAGAIN
      ∧ (statemachine_next_state (sample_machine ss_powerup) sa_arm_off none).ret ≠ EOK
      ∧ ∀ (m : Machine) (a : statemachine_actions_t) (pn : Option statemachine_states_t),
          (statemachine_next_state m a pn).ret ≠ EOK := by
  refine ⟨by decide, by decide, by decide, by decide, ?_⟩
  intro m a pn
  rw [next_state_ret]
  cases m.state <;> cases a <;> decide

/-- C4, evaluated on the code: from BeforeShutdown the action ShutdownDone
returns `EINVAL` (the case has no `break` and runs into `default:`) although
the state moves to Shutdown and the flag of every registered client is
raised. -/
theorem C4_einval_with_state_change :
    (statemachine_next_state (sample_machine ss_before_shutdown) sa_shutdown_done
        (some ss_before_shutdown)).ret = EINVAL
      ∧ (sample_machine ss_before_shutdown).state = ss_before_shutdown
      ∧ (statemachine_next_state (sample_machine ss_before_shutdown) sa_shutdown_done
          (some ss_before_shutdown)).m.state = ss_shutdown
      ∧ (statemachine_next_state (sample_machine ss_before_shutdown) sa_shutdown_done
          (some ss_before_shutdown)).pnew_state = some ss_shutdown
      ∧ ((sample_machine ss_before_shutdown).mem 100).state_haschanged = false
      ∧ ((statemachine_next_state (sample_machine ss_before_shutdown) sa_shutdown_done
          (some ss_before_shutdown)).m.mem 100).state_haschanged = true
      ∧ ((statemachine_next_state (sample_machine ss_before_shutdown) sa_shutdown_done
          (some ss_before_shutdown)).m.mem 200).state_haschanged = true := by
  refine ⟨by decide, by decide, by decide, by decide, by decide, by decide, by decide⟩

/-- C5. Terminal absorption: with the current state Shutdown, every action
leaves the machine exactly as it was (so the state stays Shutdown and no
client's flag is touched) and Shutdown is what is stored through
`pnew_state`. -/
theorem C5_terminal_absorption (m : Machine) (a : statemachine_actions_t)
    (pn : Option statemachine_states_t) (h : m.state = ss_shutdown) :
    (statemachine_next_state m a pn).m = m
      ∧ (statemachine_next_state m a pn).m.state = ss_shutdown
      ∧ (statemachine_next_state m a pn).pnew_state = pn.map (fun _ => ss_shutdown)
      ∧ ∀ p, ((statemachine_next_state m a pn).m.mem p).state_haschanged
          = (m.mem p).state_haschanged := by
  have hsw : (statemachine_next_state_switch m.state a).1 = ss_shutdown := by
    rw [h]; cases a <;> decide
  have hm : (statemachine_next_state m a pn).m = m :=
    next_state_m_of_same m a pn (by rw [hsw, h])
  refine ⟨hm, ?_, ?_, ?_⟩
  · rw [hm, h]
  · rw [next_state_pnew, hsw]
  · intro p; rw [hm]

/-- C5 at the stale timer action SuspicionExit. -/
theorem C5_terminal_absorption_witness :
    (sample_machine ss_shutdown).state = ss_shutdown
      ∧ (statemachine_next_state (sample_machine ss_shutdown) sa_suspicion_exit
          (some ss_idle)).m.state = ss_shutdown
      ∧ (statemachine_next_state (sample_machine ss_shutdown) sa_suspicion_exit
          (some ss_idle)).pnew_state = some ss_shutdown :=
  ⟨by decide,
    (C5_terminal_absorption (sample_machine ss_shutdown) sa_suspicion_exit (some ss_idle)
      (by decide)).2.1,
    (C5_terminal_absorption (sample_machine ss_shutdown) sa_suspicion_exit (some ss_idle)
      (by decide)).2.2.1⟩

/-- C6 as stated fails: in Shutdown the action ScareTimeout is not a case of
the inner switch and is answered with `EINVAL`. -/
theorem C6_shutdown_rejects_scare_timeout :
    (sample_machine ss_shutdown).state = ss_shutdown
      ∧ (statemachine_next_state (sample_machine ss_shutdown) sa_scare_timeout none).ret
          = EINVAL := by
  refine ⟨by decide, by decide⟩

/-- C6, amended. With the current state Shutdown, `statemachine_next_state`
does not return `EINVAL` exactly for the eight actions Next, ArmReset,
ArmAlarm, ArmMotion, ArmOff, Shutdown, ShutdownDone and Timeout (the cases of
the inner switch, all self-loops); every other action, the five timer actions
ScareTimeout, ScareExit, SuspicionTimeout, SuspicionExit and SlowfingerTimeout
among them, returns `EINVAL`. In both cases the machine is left as it was. -/
theorem C6_shutdown_accepts_eight (m : Machine) (a : statemachine_actions_t)
    (pn : Option statemachine_states_t) (h : m.state = ss_shutdown) :
    ((statemachine_next_state m a pn).ret ≠ EINVAL
        ↔ a ∈ [sa_transition_next, sa_arm_reset, sa_arm_alarm, sa_arm_motion, sa_arm_off,
                sa_shutdown, sa_shutdown_done, sa_timeout])
      ∧ (a ∈ [sa_scare_timeout, sa_scare_exit, sa_suspicion_timeout, sa_suspicion_exit,
                sa_slowfinger_timeout] → (statemachine_next_state m a pn).ret = EINVAL)
      ∧ (statemachine_next_state m a pn).m = m := by
  have hsw : (statemachine_next_state_switch m.state a).1 = ss_shutdown := by
    rw [h]; cases a <;> decide
  refine ⟨?_, ?_, next_state_m_of_same m a pn (by rw [hsw, h])⟩
  · rw [next_state_ret, h]; cases a <;> decide
  · rw [next_state_ret, h]; cases a <;> decide

/-- C6 amended, at the actions ShutdownDone (accepted) and ScareExit
(rejected). -/
theorem C6_shutdown_accepts_eight_witness :
    (sample_machine ss_shutdown).state = ss_shutdown
      ∧ (statemachine_next_state (sample_machine ss_shutdown) sa_shutdown_done none).ret
          ≠ EINVAL
      ∧ (statemachine_next_state (sample_machine ss_shutdown) sa_scare_exit none).ret
          = EINVAL :=
  ⟨by decide,
    (C6_shutdown_accepts_eight (sample_machine ss_shutdown) sa_shutdown_done none
      (by decide)).1.mpr (by decide),
    (C6_shutdown_accepts_eight (sample_machine ss_shutdown) sa_scare_exit none
      (by decide)).2.1 (by decide)⟩

/-- C7. Shutdown is entered by a stimulus only from BeforeShutdown with
ShutdownDone: from a state other than Shutdown, a call that ends in Shutdown
was made in BeforeShutdown with the action ShutdownDone; and from
BeforeShutdown every other action leaves the state BeforeShutdown. -/
theorem C7_shutdown_only_via_done (m : Machine) (a : statemachine_actions_t)
    (pn : Option statemachine_states_t) (hs : m.state ≠ ss_shutdown) :
    ((statemachine_next_state m a pn).m.state = ss_shutdown
        → m.state = ss_before_shutdown ∧ a = sa_shutdown_done)
      ∧ (m.state = ss_before_shutdown → a ≠ sa_shutdown_done
        → (statemachine_next_state m a pn).m.state = ss_before_shutdown) := by
  rw [next_state_m_state]
  revert hs
  cases m.state <;> cases a <;> decide

/-- C7 at BeforeShutdown: ShutdownDone ends in Shutdown, the stale timer
action ScareExit does not leave BeforeShutdown. -/
theorem C7_shutdown_only_via_done_witness :
    (sample_machine ss_before_shutdown).state ≠ ss_shutdown
      ∧ (statemachine_next_state (sample_machine ss_before_shutdown) sa_shutdown_done
          none).m.state = ss_shutdown
      ∧ (statemachine_next_state (sample_machine ss_before_shutdown) sa_scare_exit
          none).m.state = ss_before_shutdown :=
  ⟨by decide, by decide,
    (C7_shutdown_only_via_done (sample_machine ss_before_shutdown) sa_scare_exit none
      (by decide)).2 (by decide) (by decide)⟩

/-! ## Sequences of stimuli -/

theorem run_nil (m : Machine) : run m [] = m := rfl

theorem run_cons (m : Machine) (a : statemachine_actions_t)
    (l : List statemachine_actions_t) :
    run m (a :: l) = run (statemachine_next_state m a none).m l := rfl

theorem run_append (m : Machine) (l₁ l₂ : List statemachine_actions_t) :
    run m (l₁ ++ l₂) = run (run m l₁) l₂ := by
  unfold run; exact List.foldl_append _ _ _ _

theorem switch_valid (s : statemachine_states_t) (a : statemachine_actions_t) :
    s ≠ ss_END → (statemachine_next_state_switch s a).1 ≠ ss_END := by
  cases s <;> cases a <;> decide

theorem switch_shutdown_request (s : statemachine_states_t) :
    s ≠ ss_END → (statemachine_next_state_switch s sa_shutdown).1 = ss_before_shutdown
      ∨ (statemachine_next_state_switch s sa_shutdown).1 = ss_shutdown := by
  cases s <;> decide

theorem switch_closing (s : statemachine_states_t) (a : statemachine_actions_t) :
    s = ss_before_shutdown ∨ s = ss_shutdown →
      (statemachine_next_state_switch s a).1 = ss_before_shutdown
        ∨ (statemachine_next_state_switch s a).1 = ss_shutdown := by
  cases s <;> cases a <;> decide

theorem switch_shutdown_done (s : statemachine_states_t) :
    s = ss_before_shutdown ∨ s = ss_shutdown →
      (statemachine_next_state_switch s sa_shutdown_done).1 = ss_shutdown := by
  cases s <;> decide

theorem switch_absorbed (a : statemachine_actions_t) :
    (statemachine_next_state_switch ss_shutdown a).1 = ss_shutdown := by
  cases a <;> decide

theorem run_valid (l : List statemachine_actions_t) :
    ∀ m : Machine, m.state ≠ ss_END → (run m l).state ≠ ss_END := by
  induction l with
  | nil => intro m h; exact h
  | cons a l ih =>
    intro m h
    rw [run_cons]
    apply ih
    rw [next_state_m_state]
    exact switch_valid m.state a h

theorem run_closing (l : List statemachine_actions_t) :
    ∀ m : Machine, m.state = ss_before_shutdown ∨ m.state = ss_shutdown →
      (run m l).state = ss_before_shutdown ∨ (run m l).state = ss_shutdown := by
  induction l with
  | nil => intro m h; exact h
  | cons a l ih =>
    intro m h
    rw [run_cons]
    apply ih
    rw [next_state_m_state]
    exact switch_closing m.state a h

theorem run_absorbed (l : List statemachine_actions_t) :
    ∀ m : Machine, m.state = ss_shutdown → (run m l).state = ss_shutdown := by
  induction l with
  | nil => intro m h; exact h
  | cons a l ih =>
    intro m h
    rw [run_cons]
    apply ih
    rw [next_state_m_state, h]
    exact switch_absorbed a

/-- C8. Cooperative shutdown completes in the table: from every one of the 20
states, after any stimuli `xs`, the action Shutdown, any stimuli `ys`, the
action ShutdownDone and any stimuli `zs`, the current state is Shutdown. -/
theorem C8_cooperative_shutdown (m : Machine) (xs ys zs : List statemachine_actions_t)
    (hv : m.state ≠ ss_END) :
    (run m (xs ++ [sa_shutdown] ++ ys ++ [sa_shutdown_done] ++ zs)).state = ss_shutdown := by
  simp only [run_append, run_cons, run_nil]
  apply run_absorbed
  rw [next_state_m_state]
  apply switch_shutdown_done
  apply run_closing
  rw [next_state_m_state]
  exact switch_shutdown_request _ (run_valid xs m hv)

/-- C8 from ScareSetup, with sensor edges before the request, a stale
ScareExit timer between request and completion, and a stale SuspicionExit
timer afterwards. -/
theorem C8_cooperative_shutdown_witness :
    (sample_machine ss_scare_setup).state ≠ ss_END
      ∧ (run (sample_machine ss_scare_setup)
          ([sa_arm_alarm, sa_arm_off] ++ [sa_shutdown] ++ [sa_scare_exit, sa_arm_reset]
            ++ [sa_shutdown_done] ++ [sa_suspicion_exit])).state = ss_shutdown :=
  ⟨by decide,
    C8_cooperative_shutdown (sample_machine ss_scare_setup) [sa_arm_alarm, sa_arm_off]
      [sa_scare_exit, sa_arm_reset] [sa_suspicion_exit] (by decide)⟩

/-! ## Notification of the clients -/

theorem set_haschanged_flag (mem : Ptr → statemachine_cid) (p q : Ptr) :
    (set_haschanged mem p q).state_haschanged = true
      ↔ q = p ∨ (mem q).state_haschanged = true := by
  unfold set_haschanged
  by_cases hq : q = p
  · subst hq; simp
  · simp [Function.update_noteq hq, hq]

theorem foldl_set_haschanged_flag (l : List Ptr) :
    ∀ (mem : Ptr → statemachine_cid) (q : Ptr),
      (l.foldl set_haschanged mem q).state_haschanged = true
        ↔ q ∈ l ∨ (mem q).state_haschanged = true := by
  induction l with
  | nil => intro mem q; simp
  | cons p l ih =>
    intro mem q
    rw [List.foldl_cons, ih, set_haschanged_flag, List.mem_cons]
    tauto

theorem wait_of_flag (m : Machine) (p : Ptr) (h : (m.mem p).state_haschanged = true) :
    ∃ m2, statemachine_wait_state_change m p = some (EOK, m.state, m2)
      ∧ m2.state = m.state ∧ (m2.mem p).state_haschanged = false := by
  refine ⟨{ m with mem := clear_haschanged m.mem p }, ?_, rfl, ?_⟩
  · simp [statemachine_wait_state_change, h, statemachine_get_current_state_nolock]
  · simp [clear_haschanged]

theorem wait_blocks (m : Machine) (p : Ptr) (h : (m.mem p).state_haschanged = false) :
    statemachine_wait_state_change m p = none := by
  simp [statemachine_wait_state_change, h]

/-- C9. Broadcast fan-out: when `statemachine_next_state` computes a next
state different from the current one, the machine is in that next state, the
flag of every registered client is set, and the next
`statemachine_wait_state_change` of each registered client does not block,
returns `EOK` and delivers that same new state. -/
theorem C9_broadcast_fanout (m : Machine) (a : statemachine_actions_t)
    (pn : Option statemachine_states_t) (p : Ptr)
    (hchg : (statemachine_next_state_switch m.state a).1 ≠ m.state)
    (hp : p ∈ m.sscids_head) :
    (statemachine_next_state m a pn).m.state = (statemachine_next_state_switch m.state a).1
      ∧ ((statemachine_next_state m a pn).m.mem p).state_haschanged = true
      ∧ ∃ m2, statemachine_wait_state_change (statemachine_next_state m a pn).m p
          = some (EOK, (statemachine_next_state_switch m.state a).1, m2) := by
  have hflag : ((statemachine_next_state m a pn).m.mem p).state_haschanged = true := by
    rw [next_state_m_of_change m a pn hchg]
    exact (foldl_set_haschanged_flag m.sscids_head m.mem p).mpr (Or.inl hp)
  refine ⟨next_state_m_state m a pn, hflag, ?_⟩
  obtain ⟨m2, h2, _, _⟩ := wait_of_flag _ p hflag
  exact ⟨m2, by rw [h2, next_state_m_state]⟩

/-- C9 at the transition Powerup, ArmOff: both registered clients, blocked
before the call, are released with Idle. -/
theorem C9_broadcast_fanout_witness :
    statemachine_wait_state_change (sample_machine ss_powerup) 100 = none
      ∧ statemachine_wait_state_change (sample_machine ss_powerup) 200 = none
      ∧ (∃ m2, statemachine_wait_state_change
          (statemachine_next_state (sample_machine ss_powerup) sa_arm_off none).m 100
            = some (EOK, ss_idle, m2))
      ∧ (∃ m2, statemachine_wait_state_change
          (statemachine_next_state (sample_machine ss_powerup) sa_arm_off none).m 200
            = some (EOK, ss_idle, m2)) :=
  ⟨wait_blocks _ 100 (by decide), wait_blocks _ 200 (by decide),
    (C9_broadcast_fanout (sample_machine ss_powerup) sa_arm_off none 100
      (by decide) (by decide)).2.2,
    (C9_broadcast_fanout (sample_machine ss_powerup) sa_arm_off none 200
      (by decide) (by decide)).2.2⟩

/-- C10. No-op transitions are not signaled: when the next state computed for
(current state, action) equals the current state, `statemachine_next_state`
leaves the machine as it was, so every client's flag is as before and a client
whose flag is clear still blocks in `statemachine_wait_state_change`. -/
theorem C10_noop_not_signaled (m : Machine) (a : statemachine_actions_t)
    (pn : Option statemachine_states_t)
    (h : (statemachine_next_state_switch m.state a).1 = m.state) :
    (statemachine_next_state m a pn).m = m
      ∧ (∀ p, ((statemachine_next_state m a pn).m.mem p).state_haschanged
          = (m.mem p).state_haschanged)
      ∧ ∀ p, (m.mem p).state_haschanged = false →
          statemachine_wait_state_change (statemachine_next_state m a pn).m p = none := by
  have hm := next_state_m_of_same m a pn h
  refine ⟨hm, ?_, ?_⟩
  · intro p; rw [hm]
  · intro p hp; rw [hm]; exact wait_blocks m p hp

/-- C10 at the self-loop Idle, ArmOff: the registered client at address 100
stays blocked. -/
theorem C10_noop_not_signaled_witness :
    spec_table ss_idle sa_arm_off = some ss_idle
      ∧ ((sample_machine ss_idle).mem 100).state_haschanged = false
      ∧ statemachine_wait_state_change
          (statemachine_next_state (sample_machine ss_idle) sa_arm_off none).m 100 = none :=
  ⟨by decide, by decide,
    (C10_noop_not_signaled (sample_machine ss_idle) sa_arm_off none (by decide)).2.2 100
      (by decide)⟩

/-! ## Registration -/

theorem init_success (m : Machine) (p : Ptr)
    (h : m.sscid_count < statemachine_CLIENT_MAXCOUNT) :
    ∃ m1, statemachine_init m p true = some (EOK, m1)
      ∧ m1.state = (if m.sscid_count ≤ 0 then ss_powerup else m.state)
      ∧ m1.sscids_head = p :: (if m.sscid_count ≤ 0 then [] else m.sscids_head)
      ∧ m1.sscid_count = m.sscid_count + 1
      ∧ m1.sscid_uniqueid = wrap_int (m.sscid_uniqueid + 1)
      ∧ m1.mem p = { id := m.sscid_uniqueid, state_haschanged := true }
      ∧ ∀ q, q ≠ p → m1.mem q = m.mem q := by
  by_cases h0 : m.sscid_count ≤ 0
  · simp only [statemachine_init, h, h0, not_true_eq_false, if_true, if_false]
    refine ⟨_, rfl, rfl, rfl, rfl, rfl, by simp, ?_⟩
    intro q hq; simp [Function.update_noteq hq]
  · simp only [statemachine_init, h, h0, not_true_eq_false, if_true, if_false]
    refine ⟨_, rfl, rfl, rfl, rfl, rfl, by simp, ?_⟩
    intro q hq; simp [Function.update_noteq hq]

theorem init_capacity (m : Machine) (p : Ptr) (ok : Bool)
    (h : ¬ m.sscid_count < statemachine_CLIENT_MAXCOUNT) :
    statemachine_init m p ok = none := by
  simp [statemachine_init, h]

theorem init_malloc_failure (m : Machine) (p : Ptr)
    (h : m.sscid_count < statemachine_CLIENT_MAXCOUNT) :
    statemachine_init m p false
      = some (ENOMEM,
          if m.sscid_count ≤ 0 then { m with state := ss_powerup, sscids_head := [] }
          else m) := by
  simp [statemachine_init, h]

/-- C11. First-wait immediacy: a registration that succeeds (capacity left,
allocation successful) returns `EOK` and leaves the client's flag set, so
that the client's wait right after it does not block, returns `EOK` with the
state the machine has after the registration, and clears the flag. -/
theorem C11_first_wait_immediate (m : Machine) (p : Ptr)
    (h : m.sscid_count < statemachine_CLIENT_MAXCOUNT) :
    ∃ m1, statemachine_init m p true = some (EOK, m1)
      ∧ (m1.mem p).state_haschanged = true
      ∧ ∃ m2, statemachine_wait_state_change m1 p = some (EOK, m1.state, m2)
          ∧ m2.state = m1.state
          ∧ (m2.mem p).state_haschanged = false := by
  obtain ⟨m1, h1, _, _, _, _, hp, _⟩ := init_success m p h
  have hflag : (m1.mem p).state_haschanged = true := by rw [hp]
  exact ⟨m1, h1, hflag, wait_of_flag m1 p hflag⟩

/-- C11 for the first registration of the program: the wait returns Powerup
at once, and a second wait would block. -/
theorem C11_first_wait_immediate_witness :
    (initial_machine sample_mem).sscid_count < statemachine_CLIENT_MAXCOUNT
      ∧ ∃ m1, statemachine_init (initial_machine sample_mem) 100 true = some (EOK, m1)
          ∧ (m1.mem 100).state_haschanged = true
          ∧ ∃ m2, statemachine_wait_state_change m1 100 = some (EOK, m1.state, m2)
              ∧ m2.state = m1.state
              ∧ (m2.mem 100).state_haschanged = false :=
  ⟨by decide, C11_first_wait_immediate (initial_machine sample_mem) 100 (by decide)⟩

/-- C12. The machine starts in Powerup on the first registration: a
registration that succeeds while no client is registered (`sscid_count` not
above 0) sets the state to Powerup whatever it was; one that succeeds while a
client is registered leaves the state, and the record of every other client,
flag included, as it was. -/
theorem C12_powerup_on_first_registration (m : Machine) (p : Ptr)
    (h : m.sscid_count < statemachine_CLIENT_MAXCOUNT) :
    ∃ m1, statemachine_init m p true = some (EOK, m1)
      ∧ (m.sscid_count ≤ 0 → m1.state = ss_powerup)
      ∧ (0 < m.sscid_count → m1.state = m.state
          ∧ ∀ q, q ≠ p → (m1.mem q).state_haschanged = (m.mem q).state_haschanged) := by
  obtain ⟨m1, h1, hs, _, _, _, _, hq⟩ := init_success m p h
  refine ⟨m1, h1, ?_, ?_⟩
  · intro h0; rw [hs, if_pos h0]
  · intro h0
    refine ⟨by rw [hs, if_neg (not_le.mpr h0)], ?_⟩
    intro q hne; rw [hq q hne]

/-- C12 at the first registration (from Shutdown to Powerup) and at a second
one in state Idle (state kept, the flag of the client at 200 kept clear). -/
theorem C12_powerup_on_first_registration_witness :
    (∃ m1, statemachine_init (initial_machine sample_mem) 100 true = some (EOK, m1)
        ∧ m1.state = ss_powerup)
      ∧ (∃ m1, statemachine_init (sample_machine ss_idle) 300 true = some (EOK, m1)
        ∧ m1.state = ss_idle
        ∧ (m1.mem 200).state_haschanged = false) :=
  ⟨(C12_powerup_on_first_registration (initial_machine sample_mem) 100 (by decide)).imp
      (fun _ hm => ⟨hm.1, hm.2.1 (by decide)⟩),
    (C12_powerup_on_first_registration (sample_machine ss_idle) 300 (by decide)).imp
      (fun _ hm => ⟨hm.1, (hm.2.2 (by decide)).1, (hm.2.2 (by decide)).2 200 (by decide)⟩)⟩

/-- C15, evaluated on the code: the first registration of the program with a
failing allocation returns the error `ENOMEM` but has already run the
first-use branch: the state has moved from Shutdown to Powerup although no
client is registered. With a client registered the machine is untouched. -/
theorem C15_failed_first_registration_moves_state :
    (initial_machine sample_mem).state = ss_shutdown
      ∧ (statemachine_init (initial_machine sample_mem) 100 false).map
          (fun r => (r.1, r.2.state, r.2.sscids_head, r.2.sscid_count, r.2.sscid_uniqueid))
          = some (ENOMEM, ss_powerup, [], 0, 0)
      ∧ ∀ (m : Machine) (p : Ptr), 0 < m.sscid_count →
          m.sscid_count < statemachine_CLIENT_MAXCOUNT →
          statemachine_init m p false = some (ENOMEM, m) := by
  refine ⟨by decide, by decide, ?_⟩
  intro m p h0 h
  rw [init_malloc_failure m p h, if_neg (not_le.mpr h0)]

/-! ## Deregistration -/

theorem fini_remove_none (mem : Ptr → statemachine_cid) (id : Int) (l : List Ptr) :
    fini_remove mem id l = none ↔ ∀ q ∈ l, (mem q).id ≠ id := by
  induction l with
  | nil => simp [fini_remove]
  | cons q rest ih =>
    by_cases hq : (mem q).id = id
    · simp [fini_remove, hq]
    · simp [fini_remove, hq, ih]

theorem fini_remove_some (mem : Ptr → statemachine_cid) (id : Int) :
    ∀ (l l' : List Ptr), fini_remove mem id l = some l' →
      ∃ l1 q l2, l = l1 ++ q :: l2 ∧ (mem q).id = id
        ∧ (∀ x ∈ l1, (mem x).id ≠ id) ∧ l' = l1 ++ l2 := by
  intro l
  induction l with
  | nil => intro l' h; simp [fini_remove] at h
  | cons q rest ih =>
    intro l' h
    by_cases hq : (mem q).id = id
    · simp only [fini_remove, hq, if_true, Option.some.injEq] at h
      exact ⟨[], q, rest, rfl, hq, by simp, by simp [h]⟩
    · simp only [fini_remove, hq, if_false, Option.map_eq_some'] at h
      obtain ⟨r, hr, hl'⟩ := h
      obtain ⟨l1, x, l2, h1, h2, h3, h4⟩ := ih r hr
      refine ⟨q :: l1, x, l2, by simp [h1], h2, ?_, by simp [← hl', h4]⟩
      intro y hy
      rcases List.mem_cons.mp hy with rfl | hy
      · exact hq
      · exact h3 y hy

theorem fini_remove_isSome (mem : Ptr → statemachine_cid) (id : Int) (l : List Ptr) :
    (fini_remove mem id l).isSome = true ↔ ∃ q ∈ l, (mem q).id = id := by
  rw [Option.isSome_iff_ne_none, Ne, fini_remove_none]
  push_neg
  exact Iff.rfl

theorem fini_remove_erase (mem : Ptr → statemachine_cid) (p : Ptr) :
    ∀ l : List Ptr, (l.map (fun q => (mem q).id)).Nodup → p ∈ l →
      fini_remove mem (mem p).id l = some (l.erase p) := by
  intro l
  induction l with
  | nil => intro _ hp; cases hp
  | cons q rest ih =>
    intro hnd hp
    rw [List.map_cons, List.nodup_cons] at hnd
    by_cases hq : q = p
    · subst hq; simp [fini_remove]
    · have hprest : p ∈ rest := by
        rcases List.mem_cons.mp hp with h | h
        · exact absurd h.symm hq
        · exact h
      have hid : (mem q).id ≠ (mem p).id := by
        intro heq
        apply hnd.1
        rw [heq]
        exact List.mem_map.mpr ⟨p, hprest, rfl⟩
      simp [fini_remove, hid, ih hnd.2 hprest, List.erase_cons_tail, hq]

theorem fini_found (m : Machine) (pcid : Ptr) (l : List Ptr)
    (h : fini_remove m.mem (m.mem pcid).id m.sscids_head = some l) :
    statemachine_fini m pcid
      = (EOK,
          if m.sscid_count - 1 ≤ 0 then
            { m with sscids_head := l, sscid_count := m.sscid_count - 1, state := ss_shutdown }
          else { m with sscids_head := l, sscid_count := m.sscid_count - 1 }) := by
  simp only [statemachine_fini, h, Option.isSome_some, if_true]

theorem fini_not_found (m : Machine) (pcid : Ptr)
    (h : fini_remove m.mem (m.mem pcid).id m.sscids_head = none) :
    statemachine_fini m pcid
      = (EAGAIN, if m.sscid_count ≤ 0 then { m with state := ss_shutdown } else m) := by
  simp only [statemachine_fini, h, Option.isSome_none]
  rfl

/-- C16. Deregistering a registered client: in a machine whose counter equals
the length of the registry, `statemachine_fini` called with the identifier of
a registered client returns `EOK`, removes the first entry carrying that
identifier and keeps all others in order (when the registered identifiers are
pairwise distinct and the record passed is itself registered, that is exactly
its own entry), lowers the counter by one, leaves the records untouched, sets
the state to Shutdown if the counter thereby becomes zero and otherwise leaves
the state as it was. -/
theorem C16_fini_registered (m : Machine) (pcid : Ptr)
    (hwf : m.sscid_count = m.sscids_head.length)
    (hreg : ∃ q ∈ m.sscids_head, (m.mem q).id = (m.mem pcid).id) :
    (statemachine_fini m pcid).1 = EOK
      ∧ (∃ l1 q l2, m.sscids_head = l1 ++ q :: l2
          ∧ (m.mem q).id = (m.mem pcid).id
          ∧ (∀ x ∈ l1, (m.mem x).id ≠ (m.mem pcid).id)
          ∧ (statemachine_fini m pcid).2.sscids_head = l1 ++ l2)
      ∧ ((registered_ids m).Nodup → pcid ∈ m.sscids_head →
          (statemachine_fini m pcid).2.sscids_head = m.sscids_head.erase pcid)
      ∧ (statemachine_fini m pcid).2.sscid_count = m.sscid_count - 1
      ∧ (statemachine_fini m pcid).2.mem = m.mem
      ∧ (statemachine_fini m pcid).2.sscid_uniqueid = m.sscid_uniqueid
      ∧ (m.sscid_count - 1 = 0 → (statemachine_fini m pcid).2.state = ss_shutdown)
      ∧ (m.sscid_count - 1 ≠ 0 → (statemachine_fini m pcid).2.state = m.state) := by
  obtain ⟨l, hl⟩ := Option.isSome_iff_exists.mp
    ((fini_remove_isSome m.mem (m.mem pcid).id m.sscids_head).mpr hreg)
  obtain ⟨l1, q, l2, h1, h2, h3, h4⟩ := fini_remove_some _ _ _ _ hl
  have hpos : 1 ≤ m.sscid_count := by
    rw [hwf, h1]; simp; omega
  have hfini := fini_found m pcid l hl
  have hhead : (statemachine_fini m pcid).2.sscids_head = l := by
    rw [hfini]; split <;> rfl
  refine ⟨by rw [hfini], ⟨l1, q, l2, h1, h2, h3, by rw [hhead, h4]⟩, ?_, ?_, ?_, ?_, ?_, ?_⟩
  · intro hnd hp
    have := fini_remove_erase m.mem pcid m.sscids_head hnd hp
    rw [hl] at this
    rw [hhead, Option.some.inj this]
  · rw [hfini]; split <;> rfl
  · rw [hfini]; split <;> rfl
  · rw [hfini]; split <;> rfl
  · intro h0
    rw [hfini, if_pos (le_of_eq h0)]
  · intro h0
    have : ¬ m.sscid_count - 1 ≤ 0 := by omega
    rw [hfini, if_neg this]

/-- C16 on the machine with the clients 200 (id 1) and 100 (id 0): the
client 200 leaves, the client 100 stays and the state is kept. -/
theorem C16_fini_registered_witness :
    (statemachine_fini (sample_machine ss_idle) 200).1 = EOK
      ∧ (statemachine_fini (sample_machine ss_idle) 200).2.sscids_head = [100]
      ∧ (statemachine_fini (sample_machine ss_idle) 200).2.sscid_count = 1
      ∧ (statemachine_fini (sample_machine ss_idle) 200).2.state = ss_idle :=
  have h := C16_fini_registered (sample_machine ss_idle) 200 (by decide)
    ⟨200, by decide, by decide⟩
  ⟨h.1, (h.2.2.1 (by decide) (by decide)).trans (by decide),
    h.2.2.2.1.trans (by decide), (h.2.2.2.2.2.2.2 (by decide)).trans (by decide)⟩

/-- C17. Deregistering an unknown identifier fails: when no registered client
carries the identifier of the record passed in, `statemachine_fini` returns
`EAGAIN`, not `EOK`, leaves the registry, both counters and the records as
they were, and leaves the state as it was whenever the counter is above 0. -/
theorem C17_fini_unknown (m : Machine) (pcid : Ptr)
    (hno : ∀ q ∈ m.sscids_head, (m.mem q).id ≠ (m.mem pcid).id) :
    (statemachine_fini m pcid).1 = EAGAIN
      ∧ (statemachine_fini m pcid).1 ≠ EOK
      ∧ (statemachine_fini m pcid).2.sscids_head = m.sscids_head
      ∧ (statemachine_fini m pcid).2.sscid_count = m.sscid_count
      ∧ (statemachine_fini m pcid).2.sscid_uniqueid = m.sscid_uniqueid
      ∧ (statemachine_fini m pcid).2.mem = m.mem
      ∧ (0 < m.sscid_count → (statemachine_fini m pcid).2 = m) := by
  have hfini := fini_not_found m pcid ((fini_remove_none _ _ _).mpr hno)
  rw [hfini]
  refine ⟨rfl, (by decide : EAGAIN ≠ EOK), ?_, ?_, ?_, ?_, ?_⟩
  · split <;> rfl
  · split <;> rfl
  · split <;> rfl
  · split <;> rfl
  · intro h0
    simp only [if_neg (not_le.mpr h0)]

/-- C17 on the machine left by the departure of the client 200: a second
`statemachine_fini` with the same record finds no entry. -/
theorem C17_fini_unknown_witness :
    (statemachine_fini (statemachine_fini (sample_machine ss_idle) 200).2 200).1 = EAGAIN
      ∧ (statemachine_fini (statemachine_fini (sample_machine ss_idle) 200).2 200).2.sscids_head
          = [100]
      ∧ (statemachine_fini (statemachine_fini (sample_machine ss_idle) 200).2 200).2.state
          = ss_idle :=
  have h := C17_fini_unknown (statemachine_fini (sample_machine ss_idle) 200).2 200
    (by decide)
  ⟨h.1, h.2.2.1.trans (by decide), (congrArg Machine.state (h.2.2.2.2.2.2 (by decide))).trans
    (by decide)⟩

/-- C18 as stated fails: a second `statemachine_fini` with the record of a
client that has already left returns `EAGAIN`. -/
theorem C18_fini_unknown_returns_EAGAIN :
    (statemachine_fini (sample_machine ss_idle) 200).1 = EOK
      ∧ (statemachine_fini (statemachine_fini (sample_machine ss_idle) 200).2 200).1 = EAGAIN
      ∧ (statemachine_fini (statemachine_fini (sample_machine ss_idle) 200).2 200).1 ≠ EOK := by
  refine ⟨by decide, by decide, by decide⟩

/-- C18, amended. `statemachine_fini` returns `EOK` exactly when some
registered client carries the identifier of the record passed in, and
`EAGAIN` in every other case. -/
theorem C18_fini_return_code (m : Machine) (pcid : Ptr) :
    ((statemachine_fini m pcid).1 = EOK
        ↔ ∃ q ∈ m.sscids_head, (m.mem q).id = (m.mem pcid).id)
      ∧ ((statemachine_fini m pcid).1 = EAGAIN
        ↔ ∀ q ∈ m.sscids_head, (m.mem q).id ≠ (m.mem pcid).id) := by
  cases hrem : fini_remove m.mem (m.mem pcid).id m.sscids_head with
  | none =>
    have hno := (fini_remove_none _ _ _).mp hrem
    rw [fini_not_found m pcid hrem]
    refine ⟨⟨fun h => absurd h (by decide : EAGAIN ≠ EOK), ?_⟩, ⟨fun _ => hno, fun _ => rfl⟩⟩
    rintro ⟨q, hq, hid⟩
    exact absurd hid (hno q hq)
  | some l =>
    have hyes := (fini_remove_isSome m.mem (m.mem pcid).id m.sscids_head).mp (by rw [hrem]; rfl)
    rw [fini_found m pcid l hrem]
    refine ⟨⟨fun _ => hyes, fun _ => rfl⟩, ⟨fun h => absurd h (by decide : EOK ≠ EAGAIN), ?_⟩⟩
    intro hno
    obtain ⟨q, hq, hid⟩ := hyes
    exact absurd hid (hno q hq)

/-! ## Waiting clients -/

theorem next_state_sscids_head (m : Machine) (a : statemachine_actions_t)
    (pn : Option statemachine_states_t) :
    (statemachine_next_state m a pn).m.sscids_head = m.sscids_head := by
  by_cases h : (statemachine_next_state_switch m.state a).1 = m.state
  · rw [next_state_m_of_same m a pn h]
  · rw [next_state_m_of_change m a pn h]; rfl

theorem next_state_flag_mono (m : Machine) (a : statemachine_actions_t)
    (pn : Option statemachine_states_t) (p : Ptr)
    (hp : (m.mem p).state_haschanged = true) :
    ((statemachine_next_state m a pn).m.mem p).state_haschanged = true := by
  by_cases h : (statemachine_next_state_switch m.state a).1 = m.state
  · rw [next_state_m_of_same m a pn h]; exact hp
  · rw [next_state_m_of_change m a pn h]
    exact (foldl_set_haschanged_flag m.sscids_head m.mem p).mpr (Or.inr hp)

theorem next_state_flag_of_change (m : Machine) (a : statemachine_actions_t)
    (pn : Option statemachine_states_t) (p : Ptr) (hp : p ∈ m.sscids_head)
    (hchg : (statemachine_next_state m a pn).m.state ≠ m.state) :
    ((statemachine_next_state m a pn).m.mem p).state_haschanged = true := by
  rw [next_state_m_state] at hchg
  rw [next_state_m_of_change m a pn hchg]
  exact (foldl_set_haschanged_flag m.sscids_head m.mem p).mpr (Or.inl hp)

theorem run_flag_mono (l : List statemachine_actions_t) (p : Ptr) :
    ∀ m : Machine, (m.mem p).state_haschanged = true →
      ((run m l).mem p).state_haschanged = true := by
  induction l with
  | nil => intro m h; exact h
  | cons a l ih =>
    intro m h
    rw [run_cons]
    exact ih _ (next_state_flag_mono m a none p h)

theorem run_flag_of_real_transition (l : List statemachine_actions_t) (p : Ptr) :
    ∀ m : Machine, p ∈ m.sscids_head → has_real_transition m l = true →
      ((run m l).mem p).state_haschanged = true := by
  induction l with
  | nil => intro m _ h; simp [has_real_transition] at h
  | cons a l ih =>
    intro m hp h
    rw [run_cons]
    simp only [has_real_transition, Bool.or_eq_true, decide_eq_true_eq] at h
    rcases h with h | h
    · exact run_flag_mono l p _ (next_state_flag_of_change m a none p hp h)
    · exact ih _ (by rw [next_state_sscids_head]; exact hp) h

/-- C19. Level-triggered notification: for a registered client and a sequence
of stimuli delivered while it does not wait, if some call of the sequence
changed the state then one `statemachine_wait_state_change` does not block,
returns `EOK` with the state the machine has after the whole sequence, and
leaves the flag clear, so that a second wait right after it blocks. -/
theorem C19_level_triggered (m : Machine) (p : Ptr) (l : List statemachine_actions_t)
    (hp : p ∈ m.sscids_head) (hreal : has_real_transition m l = true) :
    ∃ m2, statemachine_wait_state_change (run m l) p = some (EOK, (run m l).state, m2)
      ∧ m2.state = (run m l).state
      ∧ statemachine_wait_state_change m2 p = none := by
  obtain ⟨m2, h2, hs, hf⟩ := wait_of_flag (run m l) p (run_flag_of_real_transition l p m hp hreal)
  exact ⟨m2, h2, hs, wait_blocks m2 p hf⟩

/-- C19 on three transitions in a row (Powerup, Resetting, ScareSetup,
Scare1): the client at 100 is handed Scare1 only. -/
theorem C19_level_triggered_witness :
    (run (sample_machine ss_powerup) [sa_arm_reset, sa_arm_motion, sa_arm_alarm]).state
        = ss_scare_step1
      ∧ ∃ m2, statemachine_wait_state_change
            (run (sample_machine ss_powerup) [sa_arm_reset, sa_arm_motion, sa_arm_alarm]) 100
          = some (EOK,
              (run (sample_machine ss_powerup) [sa_arm_reset, sa_arm_motion, sa_arm_alarm]).state,
              m2)
        ∧ m2.state
          = (run (sample_machine ss_powerup) [sa_arm_reset, sa_arm_motion, sa_arm_alarm]).state
        ∧ statemachine_wait_state_change m2 100 = none :=
  ⟨by decide,
    C19_level_triggered (sample_machine ss_powerup) 100
      [sa_arm_reset, sa_arm_motion, sa_arm_alarm] (by decide) (by decide)⟩

/-- C20. `statemachine_cancel_waitfor` wakes the given client without a
transition: it sets the flag of the record passed in, leaves the state, the
registry, the counters and every other record as they were, and the client's
next `statemachine_wait_state_change` does not block and returns `EOK` with
the unchanged current state. -/
theorem C20_cancel_wait (m : Machine) (p : Ptr) :
    (statemachine_cancel_waitfor m p).2.state = m.state
      ∧ (statemachine_cancel_waitfor m p).2.sscids_head = m.sscids_head
      ∧ (statemachine_cancel_waitfor m p).2.sscid_count = m.sscid_count
      ∧ (statemachine_cancel_waitfor m p).2.sscid_uniqueid = m.sscid_uniqueid
      ∧ ((statemachine_cancel_waitfor m p).2.mem p).state_haschanged = true
      ∧ (∀ q, q ≠ p → (statemachine_cancel_waitfor m p).2.mem q = m.mem q)
      ∧ ∃ m2, statemachine_wait_state_change (statemachine_cancel_waitfor m p).2 p
          = some (EOK, m.state, m2) := by
  have hflag : ((statemachine_cancel_waitfor m p).2.mem p).state_haschanged = true :=
    (set_haschanged_flag m.mem p p).mpr (Or.inl rfl)
  refine ⟨rfl, rfl, rfl, rfl, hflag, ?_, ?_⟩
  · intro q hq
    show set_haschanged m.mem p q = m.mem q
    unfold set_haschanged
    exact Function.update_noteq hq _ _
  · obtain ⟨m2, h2, _, _⟩ := wait_of_flag _ p hflag
    exact ⟨m2, h2⟩

/-- C20 on a blocked client: the client at 100 blocks in Idle, and after the
cancel its wait returns Idle while the client at 200 still blocks. -/
theorem C20_cancel_wait_witness :
    statemachine_wait_state_change (sample_machine ss_idle) 100 = none
      ∧ (∃ m2, statemachine_wait_state_change
            (statemachine_cancel_waitfor (sample_machine ss_idle) 100).2 100
          = some (EOK, ss_idle, m2))
      ∧ statemachine_wait_state_change
          (statemachine_cancel_waitfor (sample_machine ss_idle) 100).2 200 = none :=
  ⟨wait_blocks _ 100 (by decide),
    (C20_cancel_wait (sample_machine ss_idle) 100).2.2.2.2.2.2,
    wait_blocks _ 200 (by decide)⟩

/-! ## Executions: what one call changes -/

theorem wrap_int_succ (u : Int) (h0 : -2147483648 ≤ u) (h1 : u + 1 < 2147483648) :
    wrap_int (u + 1) = u + 1 := by
  unfold wrap_int; omega

theorem foldl_set_haschanged_id (l : List Ptr) :
    ∀ (mem : Ptr → statemachine_cid) (q : Ptr),
      (l.foldl set_haschanged mem q).id = (mem q).id := by
  induction l with
  | nil => intro mem q; rfl
  | cons p l ih =>
    intro mem q
    rw [List.foldl_cons, ih]
    unfold set_haschanged
    by_cases hq : q = p
    · subst hq; simp
    · rw [Function.update_noteq hq]

theorem step_init_true (m m1 : Machine) (p : Ptr) (h : step m (Op.init p true) = some m1) :
    m.sscid_count < statemachine_CLIENT_MAXCOUNT
      ∧ m1.sscids_head = p :: (if m.sscid_count ≤ 0 then [] else m.sscids_head)
      ∧ m1.sscid_count = m.sscid_count + 1
      ∧ m1.sscid_uniqueid = wrap_int (m.sscid_uniqueid + 1)
      ∧ (m1.mem p).id = m.sscid_uniqueid
      ∧ ∀ q, q ≠ p → m1.mem q = m.mem q := by
  by_cases hc : m.sscid_count < statemachine_CLIENT_MAXCOUNT
  · obtain ⟨m2, h2, _, hh, hcnt, hu, hp, hq⟩ := init_success m p hc
    simp only [step, h2, Option.map_some', Option.some.injEq] at h
    subst h
    exact ⟨hc, hh, hcnt, hu, by rw [hp], hq⟩
  · simp [step, init_capacity m p true hc] at h

theorem step_init_false (m m1 : Machine) (p : Ptr) (h : step m (Op.init p false) = some m1) :
    m.sscid_count < statemachine_CLIENT_MAXCOUNT
      ∧ m1.sscids_head = (if m.sscid_count ≤ 0 then [] else m.sscids_head)
      ∧ m1.sscid_count = m.sscid_count
      ∧ m1.sscid_uniqueid = m.sscid_uniqueid
      ∧ m1.mem = m.mem := by
  by_cases hc : m.sscid_count < statemachine_CLIENT_MAXCOUNT
  · simp only [step, init_malloc_failure m p hc, Option.map_some', Option.some.injEq] at h
    subst h
    refine ⟨hc, ?_, ?_, ?_, ?_⟩ <;> split <;> rfl
  · simp [step, init_capacity m p false hc] at h

theorem step_fini (m m1 : Machine) (p : Ptr) (h : step m (Op.fini p) = some m1) :
    m1.sscid_uniqueid = m.sscid_uniqueid
      ∧ m1.mem = m.mem
      ∧ m1.sscids_head.Sublist m.sscids_head
      ∧ m1.sscid_count - m1.sscids_head.length = m.sscid_count - m.sscids_head.length := by
  simp only [step, Option.some.injEq] at h
  subst h
  cases hrem : fini_remove m.mem (m.mem p).id m.sscids_head with
  | none =>
    rw [fini_not_found m p hrem]
    refine ⟨?_, ?_, ?_, ?_⟩ <;> split <;> simp
  | some l =>
    obtain ⟨l1, q, l2, h1, _, _, h4⟩ := fini_remove_some _ _ _ _ hrem
    have hsub : l.Sublist m.sscids_head := by
      rw [h1, h4]
      exact List.Sublist.append_left (List.sublist_cons_self q l2) l1
    have hlen : (m.sscids_head.length : Int) = l.length + 1 := by
      rw [h1, h4]; simp; omega
    rw [fini_found m p l hrem]
    refine ⟨?_, ?_, ?_, ?_⟩ <;> split <;> simp [hsub] <;> omega

theorem step_other (m m1 : Machine) (op : Op) (h : step m op = some m1)
    (hinit : ∀ p ok, op ≠ Op.init p ok) (hfini : ∀ p, op ≠ Op.fini p) :
    m1.sscids_head = m.sscids_head
      ∧ m1.sscid_count = m.sscid_count
      ∧ m1.sscid_uniqueid = m.sscid_uniqueid
      ∧ ∀ q, (m1.mem q).id = (m.mem q).id := by
  cases op with
  | init p ok => exact absurd rfl (hinit p ok)
  | fini p => exact absurd rfl (hfini p)
  | stimulate a =>
    simp only [step, Option.some.injEq] at h
    subst h
    by_cases hs : (statemachine_next_state_switch m.state a).1 = m.state
    · rw [next_state_m_of_same m a none hs]; exact ⟨rfl, rfl, rfl, fun _ => rfl⟩
    · rw [next_state_m_of_change m a none hs]
      exact ⟨rfl, rfl, rfl, fun q => foldl_set_haschanged_id m.sscids_head m.mem q⟩
  | wait p =>
    by_cases hf : (m.mem p).state_haschanged = true
    · simp only [step, statemachine_wait_state_change, hf, Bool.not_true, Bool.false_eq_true,
        if_false, Option.map_some', Option.some.injEq] at h
      subst h
      refine ⟨rfl, rfl, rfl, ?_⟩
      intro q
      show (clear_haschanged m.mem p q).id = (m.mem q).id
      unfold clear_haschanged
      by_cases hq : q = p
      · subst hq; simp
      · rw [Function.update_noteq hq]
    · simp [step, statemachine_wait_state_change, hf] at h
  | cancel p =>
    simp only [step, Option.some.injEq] at h
    subst h
    refine ⟨rfl, rfl, rfl, ?_⟩
    intro q
    show (set_haschanged m.mem p q).id = (m.mem q).id
    unfold set_haschanged
    by_cases hq : q = p
    · subst hq; simp
    · rw [Function.update_noteq hq]

/-! ## Executions: the registry counter -/

theorem step_count_inv (m m1 : Machine) (op : Op) (h : step m op = some m1)
    (hwf : m.sscid_count = m.sscids_head.length) (hcap : m.sscids_head.length ≤ 10) :
    m1.sscid_count = m1.sscids_head.length ∧ m1.sscids_head.length ≤ 10 := by
  cases op with
  | init p ok =>
    cases ok with
    | true =>
      obtain ⟨hc, hh, hcnt, _, _, _⟩ := step_init_true m m1 p h
      unfold statemachine_CLIENT_MAXCOUNT at hc
      rw [hh, hcnt]
      split
      · simp; omega
      · simp; omega
    | false =>
      obtain ⟨hc, hh, hcnt, _, _⟩ := step_init_false m m1 p h
      rw [hh, hcnt]
      split
      · simp; omega
      · exact ⟨hwf, hcap⟩
  | fini p =>
    obtain ⟨_, _, hsub, hdiff⟩ := step_fini m m1 p h
    have := hsub.length_le
    omega
  | stimulate a =>
    obtain ⟨hh, hcnt, _, _⟩ := step_other m m1 _ h (by simp) (by simp)
    rw [hh, hcnt]; exact ⟨hwf, hcap⟩
  | wait p =>
    obtain ⟨hh, hcnt, _, _⟩ := step_other m m1 _ h (by simp) (by simp)
    rw [hh, hcnt]; exact ⟨hwf, hcap⟩
  | cancel p =>
    obtain ⟨hh, hcnt, _, _⟩ := step_other m m1 _ h (by simp) (by simp)
    rw [hh, hcnt]; exact ⟨hwf, hcap⟩

theorem exec_count_inv (ops : List Op) :
    ∀ m m1 : Machine, exec m ops = some m1 →
      m.sscid_count = m.sscids_head.length → m.sscids_head.length ≤ 10 →
      m1.sscid_count = m1.sscids_head.length ∧ m1.sscids_head.length ≤ 10 := by
  induction ops with
  | nil =>
    intro m m1 h hwf hcap
    simp only [exec, Option.some.injEq] at h
    subst h; exact ⟨hwf, hcap⟩
  | cons op ops ih =>
    intro m m1 h hwf hcap
    cases hstep : step m op with
    | none => simp [exec, hstep] at h
    | some m2 =>
      simp only [exec, hstep] at h
      obtain ⟨hwf2, hcap2⟩ := step_count_inv m m2 op hstep hwf hcap
      exact ih m2 m1 h hwf2 hcap2

/-- C14. Capacity limit: in every machine reached from program start by
completed calls of the API, the counter equals the number of registry entries
and this number is at most 10; with 10 entries `statemachine_init` fails its
capacity assertion (the process is aborted, nothing is registered), and with
fewer than 10 the assertion holds and the call returns, registering the
record when the allocation succeeds. -/
theorem C14_capacity_limit (mem0 : Ptr → statemachine_cid) (ops : List Op) (m : Machine)
    (hex : exec (initial_machine mem0) ops = some m) :
    m.sscid_count = m.sscids_head.length
      ∧ m.sscids_head.length ≤ 10
      ∧ (m.sscids_head.length = 10 → ∀ p ok, statemachine_init m p ok = none)
      ∧ (m.sscids_head.length < 10 → ∀ p,
          (statemachine_init m p false).isSome = true
            ∧ ∃ m1, statemachine_init m p true = some (EOK, m1)
                ∧ m1.sscids_head.length = m.sscids_head.length + 1) := by
  obtain ⟨hwf, hcap⟩ := exec_count_inv ops _ m hex rfl (by simp [initial_machine])
  refine ⟨hwf, hcap, ?_, ?_⟩
  · intro h10 p ok
    apply init_capacity
    unfold statemachine_CLIENT_MAXCOUNT
    omega
  · intro hlt p
    have hc : m.sscid_count < statemachine_CLIENT_MAXCOUNT := by
      unfold statemachine_CLIENT_MAXCOUNT; omega
    refine ⟨by rw [init_malloc_failure m p hc]; rfl, ?_⟩
    obtain ⟨m1, h1, _, hh, _, _, _, _⟩ := init_success m p hc
    refine ⟨m1, h1, ?_⟩
    rw [hh]
    split
    · have : m.sscids_head.length = 0 := by omega
      simp [this]
    · simp

/-- C14 after ten registrations from program start: the registry holds ten
entries and an eleventh registration is stopped by the assertion. -/
theorem C14_capacity_limit_witness :
    exec (initial_machine sample_mem) ten_inits = some full_machine
      ∧ full_machine.sscids_head.length = 10
      ∧ full_machine.sscid_count = 10
      ∧ statemachine_init full_machine 11 true = none :=
  have h := C14_capacity_limit sample_mem ten_inits full_machine rfl
  ⟨rfl, by decide, h.1.trans (by decide), h.2.2.1 (by decide) 11 true⟩

/-! ## Executions: the identifiers -/

theorem step_other_uniqueid (m m1 : Machine) (op : Op) (h : step m op = some m1)
    (hop : ∀ p, op ≠ Op.init p true) :
    m1.sscid_uniqueid = m.sscid_uniqueid := by
  cases op with
  | init p ok =>
    cases ok with
    | true => exact absurd rfl (hop p)
    | false => exact (step_init_false m m1 p h).2.2.2.1
  | fini p => exact (step_fini m m1 p h).1
  | stimulate a => exact (step_other m m1 _ h (by simp) (by simp)).2.2.1
  | wait p => exact (step_other m m1 _ h (by simp) (by simp)).2.2.1
  | cancel p => exact (step_other m m1 _ h (by simp) (by simp)).2.2.1

theorem assigned_ids_cons_init (m m1 : Machine) (p : Ptr) (ops : List Op)
    (h : step m (Op.init p true) = some m1) :
    assigned_ids m (Op.init p true :: ops) = (m1.mem p).id :: assigned_ids m1 ops := by
  simp only [assigned_ids, h]

theorem assigned_ids_cons_other (m m1 : Machine) (op : Op) (ops : List Op)
    (h : step m op = some m1) (hop : ∀ p, op ≠ Op.init p true) :
    assigned_ids m (op :: ops) = assigned_ids m1 ops := by
  cases op with
  | init p ok =>
    cases ok with
    | true => exact absurd rfl (hop p)
    | false => simp only [assigned_ids, h]
  | fini p => simp only [assigned_ids, h]
  | stimulate a => simp only [assigned_ids, h]
  | wait p => simp only [assigned_ids, h]
  | cancel p => simp only [assigned_ids, h]

theorem assigned_ids_increasing (ops : List Op) :
    ∀ (m : Machine) (b : Int), -2147483648 ≤ b →
      b + (assigned_ids m ops).length ≤ 2147483648 →
      (assigned_ids m ops ≠ [] → m.sscid_uniqueid = b) →
      (assigned_ids m ops).Pairwise (fun x y => x < y)
        ∧ ∀ x ∈ assigned_ids m ops, b ≤ x := by
  induction ops with
  | nil => intro m b _ _ _; simp [assigned_ids]
  | cons op ops ih =>
    intro m b h0 h1 hu
    cases hstep : step m op with
    | none => simp [assigned_ids, hstep]
    | some m1 =>
      by_cases hop : ∃ p, op = Op.init p true
      · obtain ⟨p, rfl⟩ := hop
        rw [assigned_ids_cons_init m m1 p ops hstep] at h1 hu ⊢
        simp only [List.length_cons, Nat.cast_add, Nat.cast_one] at h1
        have hub : m.sscid_uniqueid = b := hu (List.cons_ne_nil _ _)
        obtain ⟨_, _, _, hu1, hid, _⟩ := step_init_true m m1 p hstep
        obtain ⟨hpw, hge⟩ := ih m1 (b + 1) (by omega) (by omega) (by
          intro hne
          have hpos : 0 < (assigned_ids m1 ops).length := List.length_pos.mpr hne
          rw [hu1, hub]
          exact wrap_int_succ b h0 (by omega))
        rw [hid, hub]
        refine ⟨List.pairwise_cons.mpr ⟨?_, hpw⟩, ?_⟩
        · intro x hx
          have := hge x hx
          omega
        · intro x hx
          rcases List.mem_cons.mp hx with rfl | hx
          · exact le_refl _
          · have := hge x hx
            omega
      · push_neg at hop
        rw [assigned_ids_cons_other m m1 op ops hstep hop] at h1 hu ⊢
        exact ih m1 b h0 h1 (fun hne => by
          rw [step_other_uniqueid m m1 op hstep hop]; exact hu hne)

theorem step_init_id_inv (m m1 : Machine) (r : Ptr)
    (h : step m (Op.init r true) = some m1)
    (hA : ∀ p ∈ m.sscids_head, (m.mem p).id < m.sscid_uniqueid)
    (hB : ∀ p ∈ m.sscids_head, ∀ q ∈ m.sscids_head, p ≠ q → (m.mem p).id ≠ (m.mem q).id) :
    (∀ p ∈ m1.sscids_head, (m1.mem p).id < m.sscid_uniqueid + 1)
      ∧ (∀ p ∈ m1.sscids_head, ∀ q ∈ m1.sscids_head, p ≠ q →
          (m1.mem p).id ≠ (m1.mem q).id) := by
  obtain ⟨_, hh, _, _, hid, hq⟩ := step_init_true m m1 r h
  have hmem : ∀ x ∈ m1.sscids_head, x = r ∨ (x ≠ r ∧ x ∈ m.sscids_head) := by
    intro x hx
    rw [hh] at hx
    by_cases hxr : x = r
    · exact Or.inl hxr
    · right
      refine ⟨hxr, ?_⟩
      rcases List.mem_cons.mp hx with hx | hx
      · exact absurd hx hxr
      · split at hx
        · cases hx
        · exact hx
  have hold : ∀ x, x ≠ r → x ∈ m.sscids_head → (m1.mem x).id < m.sscid_uniqueid := by
    intro x hxr hx
    rw [hq x hxr]; exact hA x hx
  constructor
  · intro x hx
    rcases hmem x hx with rfl | ⟨hxr, hx⟩
    · rw [hid]; omega
    · have := hold x hxr hx
      omega
  · intro x hx y hy hxy
    rcases hmem x hx with rfl | ⟨hxr, hx⟩
    · rcases hmem y hy with rfl | ⟨hyr, hy⟩
      · exact absurd rfl hxy
      · have := hold y hyr hy
        rw [hid]; omega
    · rcases hmem y hy with rfl | ⟨hyr, hy⟩
      · have := hold x hxr hx
        rw [hid]; omega
      · rw [hq x hxr, hq y hyr]
        exact hB x hx y hy hxy

theorem step_other_id_inv (m m1 : Machine) (op : Op) (h : step m op = some m1)
    (hop : ∀ p, op ≠ Op.init p true) (b : Int)
    (hA : ∀ p ∈ m.sscids_head, (m.mem p).id < b)
    (hB : ∀ p ∈ m.sscids_head, ∀ q ∈ m.sscids_head, p ≠ q → (m.mem p).id ≠ (m.mem q).id) :
    (∀ p ∈ m1.sscids_head, (m1.mem p).id < b)
      ∧ (∀ p ∈ m1.sscids_head, ∀ q ∈ m1.sscids_head, p ≠ q →
          (m1.mem p).id ≠ (m1.mem q).id) := by
  cases op with
  | init r ok =>
    cases ok with
    | true => exact absurd rfl (hop r)
    | false =>
      obtain ⟨_, hh, _, _, hmemeq⟩ := step_init_false m m1 r h
      have hsub : ∀ x ∈ m1.sscids_head, x ∈ m.sscids_head := by
        intro x hx
        rw [hh] at hx
        split at hx
        · cases hx
        · exact hx
      rw [hmemeq]
      exact ⟨fun x hx => hA x (hsub x hx),
        fun x hx y hy hxy => hB x (hsub x hx) y (hsub y hy) hxy⟩
  | fini r =>
    obtain ⟨_, hmemeq, hsub, _⟩ := step_fini m m1 r h
    rw [hmemeq]
    exact ⟨fun x hx => hA x (hsub.subset hx),
      fun x hx y hy hxy => hB x (hsub.subset hx) y (hsub.subset hy) hxy⟩
  | stimulate a =>
    obtain ⟨hh, _, _, hid⟩ := step_other m m1 _ h (by simp) (by simp)
    rw [hh]
    exact ⟨fun x hx => by rw [hid]; exact hA x hx,
      fun x hx y hy hxy => by rw [hid, hid]; exact hB x hx y hy hxy⟩
  | wait r =>
    obtain ⟨hh, _, _, hid⟩ := step_other m m1 _ h (by simp) (by simp)
    rw [hh]
    exact ⟨fun x hx => by rw [hid]; exact hA x hx,
      fun x hx y hy hxy => by rw [hid, hid]; exact hB x hx y hy hxy⟩
  | cancel r =>
    obtain ⟨hh, _, _, hid⟩ := step_other m m1 _ h (by simp) (by simp)
    rw [hh]
    exact ⟨fun x hx => by rw [hid]; exact hA x hx,
      fun x hx y hy hxy => by rw [hid, hid]; exact hB x hx y hy hxy⟩

theorem step_nodup (m m1 : Machine) (op : Op) (h : step m op = some m1)
    (hfresh : ∀ p ok, op = Op.init p ok → p ∉ m.sscids_head)
    (hC : m.sscids_head.Nodup) : m1.sscids_head.Nodup := by
  cases op with
  | init r ok =>
    have hr := hfresh r ok rfl
    cases ok with
    | true =>
      obtain ⟨_, hh, _, _, _, _⟩ := step_init_true m m1 r h
      rw [hh]
      split
      · simp
      · exact List.nodup_cons.mpr ⟨hr, hC⟩
    | false =>
      obtain ⟨_, hh, _, _, _⟩ := step_init_false m m1 r h
      rw [hh]
      split
      · simp
      · exact hC
  | fini r =>
    obtain ⟨_, _, hsub, _⟩ := step_fini m m1 r h
    exact hC.sublist hsub
  | stimulate a =>
    obtain ⟨hh, _, _, _⟩ := step_other m m1 _ h (by simp) (by simp)
    rw [hh]; exact hC
  | wait r =>
    obtain ⟨hh, _, _, _⟩ := step_other m m1 _ h (by simp) (by simp)
    rw [hh]; exact hC
  | cancel r =>
    obtain ⟨hh, _, _, _⟩ := step_other m m1 _ h (by simp) (by simp)
    rw [hh]; exact hC

theorem exec_id_inv (ops : List Op) :
    ∀ (m m1 : Machine) (b : Int), exec m ops = some m1 →
      -2147483648 ≤ b → b + (assigned_ids m ops).length ≤ 2147483648 →
      (assigned_ids m ops ≠ [] → m.sscid_uniqueid = b) →
      (∀ p ∈ m.sscids_head, (m.mem p).id < b) →
      (∀ p ∈ m.sscids_head, ∀ q ∈ m.sscids_head, p ≠ q → (m.mem p).id ≠ (m.mem q).id) →
      (∀ p ∈ m1.sscids_head, ∀ q ∈ m1.sscids_head, p ≠ q → (m1.mem p).id ≠ (m1.mem q).id)
        ∧ (m.sscids_head.Nodup → fresh_inits m ops = true → m1.sscids_head.Nodup) := by
  induction ops with
  | nil =>
    intro m m1 b h _ _ _ _ hB
    simp only [exec, Option.some.injEq] at h
    subst h
    exact ⟨hB, fun hC _ => hC⟩
  | cons op ops ih =>
    intro m m1 b h h0 h1 hu hA hB
    cases hstep : step m op with
    | none => simp [exec, hstep] at h
    | some m2 =>
      simp only [exec, hstep] at h
      have hrest : (∀ p ∈ m1.sscids_head, ∀ q ∈ m1.sscids_head, p ≠ q →
            (m1.mem p).id ≠ (m1.mem q).id)
          ∧ (m2.sscids_head.Nodup → fresh_inits m2 ops = true → m1.sscids_head.Nodup) := by
        by_cases hop : ∃ p, op = Op.init p true
        · obtain ⟨p, rfl⟩ := hop
          rw [assigned_ids_cons_init m m2 p ops hstep] at h1 hu
          simp only [List.length_cons, Nat.cast_add, Nat.cast_one] at h1
          have hub : m.sscid_uniqueid = b := hu (List.cons_ne_nil _ _)
          obtain ⟨_, _, _, hu2, _, _⟩ := step_init_true m m2 p hstep
          obtain ⟨hA2, hB2⟩ := step_init_id_inv m m2 p hstep (by rw [hub]; exact hA) hB
          rw [hub] at hA2
          exact ih m2 m1 (b + 1) h (by omega) (by omega) (by
            intro hne
            have hpos : 0 < (assigned_ids m2 ops).length := List.length_pos.mpr hne
            rw [hu2, hub]
            exact wrap_int_succ b h0 (by omega)) hA2 hB2
        · push_neg at hop
          rw [assigned_ids_cons_other m m2 op ops hstep hop] at h1 hu
          obtain ⟨hA2, hB2⟩ := step_other_id_inv m m2 op hstep hop b hA hB
          exact ih m2 m1 b h h0 h1 (fun hne => by
            rw [step_other_uniqueid m m2 op hstep hop]; exact hu hne) hA2 hB2
      obtain ⟨hB1, hC1⟩ := hrest
      refine ⟨hB1, ?_⟩
      intro hC hfresh
      simp only [fresh_inits, hstep, Bool.and_eq_true] at hfresh
      apply hC1 _ hfresh.2
      apply step_nodup m m2 op hstep _ hC
      intro p ok hop
      subst hop
      simpa using hfresh.1

theorem assigned_ids_append (xs ys : List Op) :
    ∀ m m1 : Machine, exec m xs = some m1 →
      assigned_ids m (xs ++ ys) = assigned_ids m xs ++ assigned_ids m1 ys := by
  induction xs with
  | nil =>
    intro m m1 h
    simp only [exec, Option.some.injEq] at h
    subst h; simp [assigned_ids]
  | cons op xs ih =>
    intro m m1 h
    cases hstep : step m op with
    | none => simp [exec, hstep] at h
    | some m2 =>
      simp only [exec, hstep] at h
      by_cases hop : ∃ p, op = Op.init p true
      · obtain ⟨p, rfl⟩ := hop
        rw [List.cons_append, assigned_ids_cons_init m m2 p _ hstep,
          assigned_ids_cons_init m m2 p _ hstep, ih m2 m1 h, List.cons_append]
      · push_neg at hop
        rw [List.cons_append, assigned_ids_cons_other m m2 op _ hstep hop,
          assigned_ids_cons_other m m2 op _ hstep hop, ih m2 m1 h]

theorem step_init_true_some (m : Machine) (p : Ptr)
    (hc : m.sscid_count < statemachine_CLIENT_MAXCOUNT) :
    ∃ m1, step m (Op.init p true) = some m1
      ∧ m1.sscids_head = p :: (if m.sscid_count ≤ 0 then [] else m.sscids_head)
      ∧ m1.sscid_count = m.sscid_count + 1
      ∧ m1.sscid_uniqueid = wrap_int (m.sscid_uniqueid + 1)
      ∧ (m1.mem p).id = m.sscid_uniqueid := by
  obtain ⟨m1, h1, _, hh, hcnt, hu, hp, _⟩ := init_success m p hc
  exact ⟨m1, by simp [step, h1], hh, hcnt, hu, by rw [hp]⟩

theorem churn_exec (n : Nat) :
    ∀ m : Machine, m.sscids_head = [] → m.sscid_count = 0 →
      -2147483648 ≤ m.sscid_uniqueid → m.sscid_uniqueid + n < 2147483648 →
      ∃ m1, exec m (churn n) = some m1 ∧ m1.sscids_head = [] ∧ m1.sscid_count = 0
        ∧ m1.sscid_uniqueid = m.sscid_uniqueid + n := by
  induction n with
  | zero => intro m hh hc _ _; exact ⟨m, rfl, hh, hc, by simp⟩
  | succ n ih =>
    intro m hh hc h0 h1
    simp only [Nat.cast_add, Nat.cast_one] at h1
    obtain ⟨m1, hs1, hh1, hc1, hu1, hid1⟩ := step_init_true_some m 100
      (by rw [hc]; decide)
    rw [wrap_int_succ _ h0 (by omega)] at hu1
    rw [hc] at hh1 hc1
    simp only [le_refl, if_true, zero_add] at hh1 hc1
    have hrem : fini_remove m1.mem (m1.mem 100).id m1.sscids_head = some [] := by
      rw [hh1]; simp [fini_remove]
    have hf := fini_found m1 100 [] hrem
    rw [hc1] at hf
    simp only [sub_self, le_refl, if_true] at hf
    obtain ⟨m2, he, hh2, hc2, hu2⟩ := ih (statemachine_fini m1 100).2
      (by rw [hf]) (by rw [hf]) (by rw [hf]; show -2147483648 ≤ m1.sscid_uniqueid; omega)
      (by rw [hf]; show m1.sscid_uniqueid + n < 2147483648; omega)
    refine ⟨m2, ?_, hh2, hc2, ?_⟩
    · have hs2 : step m1 (Op.fini 100) = some (statemachine_fini m1 100).2 := rfl
      simp only [churn, exec, hs1, hs2]
      exact he
    · rw [hu2, hf]
      show m1.sscid_uniqueid + (n : Int) = m.sscid_uniqueid + ((n : Int) + 1)
      omega

/-- C13 as stated fails in two ways. A record passed to `statemachine_init`
while it is still registered occupies two registry entries that carry one and
the same identifier. And the counter `sscid_uniqueid` is an `int` that every
registration increments: after 2147483647 registrations (one client that
registers and deregisters over and over) the next two registrations are
handed 2147483647 and then, the increment having wrapped, a smaller
identifier. -/
theorem C13_ids_repeat_and_wrap :
    (exec (initial_machine sample_mem) [Op.init 100 true, Op.init 100 true]).map
        (fun m => (m.sscids_head, registered_ids m)) = some ([100, 100], [1, 1])
      ∧ ¬ (registered_ids ((exec (initial_machine sample_mem)
            [Op.init 100 true, Op.init 100 true]).getD (initial_machine sample_mem))).Nodup
      ∧ ¬ (assigned_ids (initial_machine sample_mem)
            (churn 2147483647 ++ [Op.init 100 true, Op.init 200 true])).Pairwise
              (fun a b => a < b) := by
  refine ⟨by decide, by decide, ?_⟩
  obtain ⟨m1, he, _, hc, hu⟩ := churn_exec 2147483647 (initial_machine sample_mem) rfl rfl
    (by decide) (by decide)
  obtain ⟨m2, hs2, _, hc2, hu2, hid2⟩ := step_init_true_some m1 100 (by rw [hc]; decide)
  obtain ⟨m3, hs3, _, _, _, hid3⟩ := step_init_true_some m2 200
    (by rw [hc2, hc]; decide)
  have hu1 : m1.sscid_uniqueid = 2147483647 := by rw [hu]; rfl
  have hlast : assigned_ids m1 [Op.init 100 true, Op.init 200 true]
      = [2147483647, -2147483648] := by
    rw [assigned_ids_cons_init m1 m2 100 _ hs2, assigned_ids_cons_init m2 m3 200 _ hs3,
      hid2, hid3, hu2, hu1]
    rfl
  rw [assigned_ids_append _ _ _ m1 he, hlast]
  intro hpw
  have h2 := (List.pairwise_append.mp hpw).2.1
  rw [List.pairwise_cons] at h2
  exact absurd (h2.1 _ (List.mem_singleton.mpr rfl)) (by decide)

/-- C13, amended. In an execution from program start in which at most
2147483648 calls of `statemachine_init` have succeeded (the identifiers handed
out are those the `int` counter takes before its increment wraps; calls that
register nothing do not count), every successful `statemachine_init` hands
out an identifier strictly greater than all those handed out before it; two
different registered records carry different identifiers; and when no record
was passed to `statemachine_init` while it was in the registry, the
identifiers of the registry entries are pairwise distinct. -/
theorem C13_ids_monotone (mem0 : Ptr → statemachine_cid) (ops : List Op) (m : Machine)
    (hcount : (assigned_ids (initial_machine mem0) ops).length ≤ 2147483648)
    (hex : exec (initial_machine mem0) ops = some m) :
    (assigned_ids (initial_machine mem0) ops).Pairwise (fun a b => a < b)
      ∧ (∀ p ∈ m.sscids_head, ∀ q ∈ m.sscids_head, p ≠ q → (m.mem p).id ≠ (m.mem q).id)
      ∧ (fresh_inits (initial_machine mem0) ops = true → (registered_ids m).Nodup) := by
  have hcount' : (0 : Int) + ((assigned_ids (initial_machine mem0) ops).length : Int)
      ≤ 2147483648 := by
    omega
  obtain ⟨hB, hC⟩ := exec_id_inv ops (initial_machine mem0) m 0 hex (by decide) hcount'
    (fun _ => rfl) (by intro p hp; cases hp) (by intro p hp; cases hp)
  refine ⟨(assigned_ids_increasing ops (initial_machine mem0) 0 (by decide) hcount'
    (fun _ => rfl)).1, hB, ?_⟩
  intro hfresh
  have hnd : m.sscids_head.Nodup := hC List.nodup_nil hfresh
  unfold registered_ids
  apply List.Nodup.map_on _ hnd
  intro x hx y hy hxy
  by_contra hne
  exact hB x hx y hy hne hxy

/-- C13 amended, on an execution with two registrations, a stimulus, a
deregistration and a third registration: the identifiers handed out are 0, 1,
2 and the two clients left in the registry carry 2 and 1. -/
theorem C13_ids_monotone_witness :
    exec (initial_machine sample_mem) sample_ops = some sample_ops_machine
      ∧ assigned_ids (initial_machine sample_mem) sample_ops = [0, 1, 2]
      ∧ registered_ids sample_ops_machine = [2, 1]
      ∧ (assigned_ids (initial_machine sample_mem) sample_ops).Pairwise (fun a b => a < b)
      ∧ (registered_ids sample_ops_machine).Nodup :=
  have h := C13_ids_monotone sample_mem sample_ops sample_ops_machine (by decide) rfl
  ⟨rfl, by decide, by decide, h.1, h.2.2 (by decide)⟩

/-! ## Cancelling a wait, stale timers, the no-op stimulus -/

/-- C21 as stated fails: with the clients at 100 and 200 both blocked, a
cancel for the client at 100 releases that client only; the client at 200
still has its flag clear and still blocks. -/
theorem C21_cancel_leaves_others_blocked :
    100 ∈ (sample_machine ss_idle).sscids_head
      ∧ 200 ∈ (sample_machine ss_idle).sscids_head
      ∧ statemachine_wait_state_change (sample_machine ss_idle) 200 = none
      ∧ ((statemachine_cancel_waitfor (sample_machine ss_idle) 100).2.mem 200).state_haschanged
          = false
      ∧ statemachine_wait_state_change
          (statemachine_cancel_waitfor (sample_machine ss_idle) 100).2 200 = none :=
  ⟨by decide, by decide, wait_blocks _ 200 (by decide), by decide,
    wait_blocks _ 200 (by decide)⟩

/-- C21, amended. `statemachine_cancel_waitfor` releases the wait of the
client passed in and of no other: the flag of the record passed in is set and
its wait returns, while every other record keeps its flag, so that a client
whose flag was clear still blocks. -/
theorem C21_cancel_releases_only_given (m : Machine) (p q : Ptr) (hq : q ≠ p)
    (hclear : (m.mem q).state_haschanged = false) :
    ((statemachine_cancel_waitfor m p).2.mem q).state_haschanged = false
      ∧ statemachine_wait_state_change (statemachine_cancel_waitfor m p).2 q = none
      ∧ ∃ m2, statemachine_wait_state_change (statemachine_cancel_waitfor m p).2 p
          = some (EOK, m.state, m2) := by
  have hmem : (statemachine_cancel_waitfor m p).2.mem q = m.mem q := by
    show set_haschanged m.mem p q = m.mem q
    unfold set_haschanged
    exact Function.update_noteq hq _ _
  have hflag : ((statemachine_cancel_waitfor m p).2.mem q).state_haschanged = false := by
    rw [hmem]; exact hclear
  have hp : ((statemachine_cancel_waitfor m p).2.mem p).state_haschanged = true :=
    (set_haschanged_flag m.mem p p).mpr (Or.inl rfl)
  obtain ⟨m2, h2, _, _⟩ := wait_of_flag _ p hp
  exact ⟨hflag, wait_blocks _ q hflag, m2, h2⟩

/-- C21 amended, on the blocked clients at 200 and 100: after a cancel for
200 the client at 100 still blocks and the client at 200 is handed Idle. -/
theorem C21_cancel_releases_only_given_witness :
    statemachine_wait_state_change
        (statemachine_cancel_waitfor (sample_machine ss_idle) 200).2 100 = none
      ∧ ∃ m2, statemachine_wait_state_change
          (statemachine_cancel_waitfor (sample_machine ss_idle) 200).2 200
            = some (EOK, ss_idle, m2) :=
  (C21_cancel_releases_only_given (sample_machine ss_idle) 200 100 (by decide)
    (by decide)).2

theorem switch_timer_action (s : statemachine_states_t) (a : statemachine_actions_t) :
    s ≠ ss_END →
    a ∈ [sa_timeout, sa_scare_timeout, sa_scare_exit, sa_suspicion_timeout,
          sa_suspicion_exit, sa_slowfinger_timeout] →
    (statemachine_next_state_switch s a).1 ≠ ss_END
      ∧ ((statemachine_next_state_switch s a).2 = EINVAL
          → (statemachine_next_state_switch s a).1 = s)
      ∧ ((statemachine_next_state_switch s a).2 = EINVAL
          ↔ spec_table s a = none ∧ ¬ (s = ss_shutdown ∧ a = sa_timeout)) := by
  cases s <;> cases a <;> decide

/-- C23 as stated fails: the timer action ScareExit, armed in ScareSetup for
3 s later, is not a case of the switch in SuspicionSetup, where it is
answered with `EINVAL`; so is ScareTimeout in Idle. -/
theorem C23_stale_timer_rejected :
    (statemachine_next_state (sample_machine ss_suspicion_setup) sa_scare_exit none).ret
        = EINVAL
      ∧ (statemachine_next_state (sample_machine ss_idle) sa_scare_timeout none).ret = EINVAL
      ∧ spec_table ss_suspicion_setup sa_scare_exit = none := by
  refine ⟨by decide, by decide, by decide⟩

/-- C23, amended. In each of the 20 states a timer-delivered action (Timeout,
ScareTimeout, ScareExit, SuspicionTimeout, SuspicionExit, SlowfingerTimeout)
leaves the machine in one of the 20 states. It is rejected with `EINVAL`
exactly when the pair is not listed in the table of section 4.2 (and is not
Timeout in Shutdown), and then the machine is left as it was; otherwise it is
an accepted entry, a self-loop or a transition. -/
theorem C23_stale_timer_tolerated (m : Machine) (a : statemachine_actions_t)
    (pn : Option statemachine_states_t) (hv : m.state ≠ ss_END)
    (ht : a ∈ [sa_timeout, sa_scare_timeout, sa_scare_exit, sa_suspicion_timeout,
                sa_suspicion_exit, sa_slowfinger_timeout]) :
    (statemachine_next_state m a pn).m.state ≠ ss_END
      ∧ ((statemachine_next_state m a pn).ret = EINVAL
          → (statemachine_next_state m a pn).m = m)
      ∧ ((statemachine_next_state m a pn).ret = EINVAL
          ↔ spec_table m.state a = none ∧ ¬ (m.state = ss_shutdown ∧ a = sa_timeout)) := by
  obtain ⟨h1, h2, h3⟩ := switch_timer_action m.state a hv ht
  rw [next_state_ret, next_state_m_state]
  exact ⟨h1, fun h => next_state_m_of_same m a pn (h2 h), h3⟩

/-- C23 amended, on two stale timers: ScareExit in SuspicionSetup is
rejected and changes nothing, Timeout in Offence is an accepted self-loop. -/
theorem C23_stale_timer_tolerated_witness :
    (statemachine_next_state (sample_machine ss_suspicion_setup) sa_scare_exit none).m
        = sample_machine ss_suspicion_setup
      ∧ (statemachine_next_state (sample_machine ss_offence) sa_timeout none).ret ≠ EINVAL
      ∧ (statemachine_next_state (sample_machine ss_offence) sa_timeout none).m.state
          ≠ ss_END :=
  ⟨(C23_stale_timer_tolerated (sample_machine ss_suspicion_setup) sa_scare_exit none
      (by decide) (by decide)).2.1 (by decide),
    by decide,
    (C23_stale_timer_tolerated (sample_machine ss_offence) sa_timeout none
      (by decide) (by decide)).1⟩

theorem switch_next (s : statemachine_states_t) :
    (s ≠ ss_scare_step2 → (statemachine_next_state_switch s sa_transition_next).1 = s)
      ∧ (s = ss_scare_step2
          → (statemachine_next_state_switch s sa_transition_next).1 = ss_offence) := by
  cases s <;> decide

/-- C26 as stated fails: in Scare2 the action Next is a transition to Offence
and the flag of every registered client is set. -/
theorem C26_next_leaves_scare2 :
    (statemachine_next_state (sample_machine ss_scare_step2) sa_transition_next none).m.state
        = ss_offence
      ∧ ((sample_machine ss_scare_step2).mem 100).state_haschanged = false
      ∧ ((statemachine_next_state (sample_machine ss_scare_step2) sa_transition_next
          none).m.mem 100).state_haschanged = true
      ∧ spec_table ss_scare_step2 sa_transition_next = some ss_offence := by
  refine ⟨by decide, by decide, by decide, by decide⟩

/-- C26, amended. In every state other than Scare2 the action Next leaves the
machine as it was: the state is unchanged and no client's flag is set. In
Scare2 it is the transition to Offence of the table, which sets the flag of
every registered client. -/
theorem C26_next_noop_except_scare2 (m : Machine) (pn : Option statemachine_states_t) :
    (m.state ≠ ss_scare_step2 → (statemachine_next_state m sa_transition_next pn).m = m)
      ∧ (m.state = ss_scare_step2 →
          (statemachine_next_state m sa_transition_next pn).m.state = ss_offence
            ∧ ∀ p ∈ m.sscids_head,
                ((statemachine_next_state m sa_transition_next pn).m.mem p).state_haschanged
                  = true) := by
  obtain ⟨h1, h2⟩ := switch_next m.state
  refine ⟨fun h => next_state_m_of_same m _ pn (h1 h), ?_⟩
  intro h
  have hst : (statemachine_next_state m sa_transition_next pn).m.state = ss_offence := by
    rw [next_state_m_state]; exact h2 h
  refine ⟨hst, ?_⟩
  intro p hp
  apply next_state_flag_of_change m _ pn p hp
  rw [hst, h]
  decide

/-- C26 amended, in Idle (nothing changes, the client at 100 stays blocked)
and in Scare2 (Offence). -/
theorem C26_next_noop_except_scare2_witness :
    (statemachine_next_state (sample_machine ss_idle) sa_transition_next none).m
        = sample_machine ss_idle
      ∧ (statemachine_next_state (sample_machine ss_scare_step2) sa_transition_next
          none).m.state = ss_offence :=
  ⟨(C26_next_noop_except_scare2 (sample_machine ss_idle) none).1 (by decide),
    ((C26_next_noop_except_scare2 (sample_machine ss_scare_step2) none).2 (by decide)).1⟩

/-! ## Executions: the current state -/

theorem step_state_valid (m m1 : Machine) (op : Op) (h : step m op = some m1)
    (hv : m.state ≠ ss_END) : m1.state ≠ ss_END := by
  cases op with
  | init p ok =>
    by_cases hc : m.sscid_count < statemachine_CLIENT_MAXCOUNT
    · cases ok with
      | true =>
        obtain ⟨m2, h2, hs, _⟩ := init_success m p hc
        simp only [step, h2, Option.map_some', Option.some.injEq] at h
        subst h
        rw [hs]; split
        · decide
        · exact hv
      | false =>
        simp only [step, init_malloc_failure m p hc, Option.map_some',
          Option.some.injEq] at h
        subst h
        split
        · show ss_powerup ≠ ss_END
          decide
        · exact hv
    · simp [step, init_capacity m p ok hc] at h
  | fini p =>
    simp only [step, Option.some.injEq] at h
    subst h
    cases hrem : fini_remove m.mem (m.mem p).id m.sscids_head with
    | none =>
      rw [fini_not_found m p hrem]
      show (if m.sscid_count ≤ 0 then _ else m).state ≠ ss_END
      split
      · show ss_shutdown ≠ ss_END
        decide
      · exact hv
    | some l =>
      rw [fini_found m p l hrem]
      show (if m.sscid_count - 1 ≤ 0 then (_ : Machine) else _).state ≠ ss_END
      split
      · show ss_shutdown ≠ ss_END
        decide
      · exact hv
  | stimulate a =>
    simp only [step, Option.some.injEq] at h
    subst h
    rw [next_state_m_state]
    exact switch_valid m.state a hv
  | wait p =>
    by_cases hf : (m.mem p).state_haschanged = true
    · obtain ⟨m2, h2, hs, _⟩ := wait_of_flag m p hf
      simp only [step, h2, Option.map_some', Option.some.injEq] at h
      subst h
      rw [hs]; exact hv
    · simp [step, statemachine_wait_state_change, hf] at h
  | cancel p =>
    simp only [step, Option.some.injEq] at h
    subst h
    exact hv

theorem exec_state_valid (ops : List Op) :
    ∀ m m1 : Machine, exec m ops = some m1 → m.state ≠ ss_END → m1.state ≠ ss_END := by
  induction ops with
  | nil =>
    intro m m1 h hv
    simp only [exec, Option.some.injEq] at h
    subst h; exact hv
  | cons op ops ih =>
    intro m m1 h hv
    cases hstep : step m op with
    | none => simp [exec, hstep] at h
    | some m2 =>
      simp only [exec, hstep] at h
      exact ih m2 m1 h (step_state_valid m m2 op hstep hv)

/-- C24. The current state is always one of the 20 defined states: in every
machine reached from program start by completed calls of the API (register,
deregister, stimulate with any action value, wait, cancel) the state is not
the end marker, so the `default:` branch for an unknown current state is never
taken; a stimulus then yields the next state that the switch gives for the
current state and the action alone, which is again one of the 20 states and,
for a pair listed in section 4.2, the listed target. -/
theorem C24_state_always_valid (mem0 : Ptr → statemachine_cid) (ops : List Op) (m : Machine)
    (hex : exec (initial_machine mem0) ops = some m) :
    m.state ≠ ss_END
      ∧ ∀ (a : statemachine_actions_t) (pn : Option statemachine_states_t),
          (statemachine_next_state m a pn).m.state = (statemachine_next_state_switch m.state a).1
            ∧ (statemachine_next_state m a pn).m.state ≠ ss_END
            ∧ (spec_table m.state a = none
                ∨ spec_table m.state a = some (statemachine_next_state m a pn).m.state) := by
  have hv : m.state ≠ ss_END :=
    exec_state_valid ops _ m hex (by show ss_shutdown ≠ ss_END; decide)
  refine ⟨hv, ?_⟩
  intro a pn
  rw [next_state_m_state]
  exact ⟨rfl, switch_valid m.state a hv, switch_listed m.state a⟩

/-- C24 on the machine reached by two registrations, a stimulus, a
deregistration and a third registration: it is in Idle, and the out-of-range
action value `sa_END` leaves it there. -/
theorem C24_state_always_valid_witness :
    exec (initial_machine sample_mem) sample_ops = some sample_ops_machine
      ∧ sample_ops_machine.state = ss_idle
      ∧ sample_ops_machine.state ≠ ss_END
      ∧ (statemachine_next_state sample_ops_machine sa_END none).m.state ≠ ss_END :=
  have h := C24_state_always_valid sample_mem sample_ops sample_ops_machine rfl
  ⟨rfl, by decide, h.1, (h.2 sa_END none).2.1⟩

/-! ## main.c: the random delay -/

theorem wrap_int_id (x : Int) (h0 : -2147483648 ≤ x) (h1 : x < 2147483648) :
    wrap_int x = x := by
  unfold wrap_int; omega

theorem get_random_number_in_range (rand min_num max_num : Int) (hr : 0 ≤ rand)
    (hmin : -2147483648 ≤ min_num) (hlt : min_num < max_num)
    (hmax : max_num < 2147483647) :
    ∃ r, get_random_number rand min_num max_num = some r ∧ min_num ≤ r ∧ r ≤ max_num := by
  have hhi : wrap_int (max_num + 1) = max_num + 1 := wrap_int_id _ (by omega) (by omega)
  simp only [get_random_number, hlt, if_true, hhi]
  have ht0 : 0 ≤ Int.tmod rand (wrap_int (max_num + 1 - min_num)) := Int.tmod_nonneg _ hr
  by_cases hD : max_num + 1 - min_num < 2147483648
  · have hd : wrap_int (max_num + 1 - min_num) = max_num + 1 - min_num :=
      wrap_int_id _ (by omega) hD
    rw [hd] at ht0 ⊢
    have ht1 : Int.tmod rand (max_num + 1 - min_num) < max_num + 1 - min_num :=
      Int.tmod_lt_of_pos rand (by omega)
    rw [if_neg (by omega)]
    refine ⟨_, rfl, ?_, ?_⟩
    · rw [wrap_int_id _ (by omega) (by omega)]; omega
    · rw [wrap_int_id _ (by omega) (by omega)]; omega
  · have hd : wrap_int (max_num + 1 - min_num) = -(4294967296 - (max_num + 1 - min_num)) := by
      unfold wrap_int; omega
    rw [hd, Int.tmod_neg] at ht0
    rw [hd, Int.tmod_neg]
    have ht1 : Int.tmod rand (4294967296 - (max_num + 1 - min_num))
        < 4294967296 - (max_num + 1 - min_num) :=
      Int.tmod_lt_of_pos rand (by omega)
    rw [if_neg (by omega)]
    refine ⟨_, rfl, ?_, ?_⟩
    · rw [wrap_int_id _ (by omega) (by omega)]; omega
    · rw [wrap_int_id _ (by omega) (by omega)]; omega

/-- C25 as stated fails: for the pair (7, 3) the result 4 is outside the
(empty) range from 7 to 3, and for the pair (5, 5) the divisor is -1, the
remainder 0 and the result 6. -/
theorem C25_out_of_range :
    get_random_number 0 7 3 = some 4
      ∧ ¬ (7 ≤ (4 : Int) ∧ (4 : Int) ≤ 3)
      ∧ get_random_number 12345 5 5 = some 6
      ∧ ¬ (5 ≤ (6 : Int) ∧ (6 : Int) ≤ 5) := by
  refine ⟨by decide, by decide, by decide, by decide⟩

/-- C25, amended. For every pair of `int` values with min < max and max + 1
representable, and every (non-negative) value returned by `rand()`,
`get_random_number(min, max)` returns an integer r with min <= r <= max. -/
theorem C25_random_in_range (rand min_num max_num : Int) (hr : 0 ≤ rand)
    (hmin : -2147483648 ≤ min_num) (hlt : min_num < max_num)
    (hmax : max_num < 2147483647) :
    ∃ r, get_random_number rand min_num max_num = some r ∧ min_num ≤ r ∧ r ≤ max_num :=
  get_random_number_in_range rand min_num max_num hr hmin hlt hmax

/-- C25 amended, for the peek delay of 1 s to 12 s with `rand()` returning
its largest value. -/
theorem C25_random_in_range_witness :
    get_random_number 2147483647 1000000 12000000 = some 3483452
      ∧ ∃ r, get_random_number 2147483647 1000000 12000000 = some r
          ∧ 1000000 ≤ r ∧ r ≤ 12000000 :=
  ⟨by decide,
    C25_random_in_range 2147483647 1000000 12000000 (by decide) (by decide) (by decide)
      (by decide)⟩

/-! ## main.c: what the functions log and change -/

theorem arm_movement_stop_log (w : World) :
    (arm_movement_stop w).log = w.log ++ [Call.arm_stop] := rfl

theorem arm_movement_forward_log (w : World) :
    (arm_movement_forward w).log = w.log ++ [Call.arm_forward] := rfl

theorem arm_movement_backward_low (w : World) (h : w.box_swstates.int_switch1 = false) :
    arm_movement_backward w
      = { w with
          log := w.log ++ [Call.arm_backward]
          pin_mtr_in1 := true
          pin_mtr_in2 := false
          pin_mtr_en := true
          arm_movement_state := am_bwd } := by
  simp [arm_movement_backward, h]

theorem arm_movement_backward_high (w : World) (h : w.box_swstates.int_switch1 = true) :
    arm_movement_backward w
      = world_next_state { w with log := w.log ++ [Call.arm_backward] }
          (if w.box_swstates.ext_switch1 = true then sa_arm_alarm else sa_arm_off) := by
  by_cases he : w.box_swstates.ext_switch1 = true
  · simp [arm_movement_backward, h, he]
  · simp [arm_movement_backward, h, he]

theorem arm_movement_backward_log (w : World) :
    (arm_movement_backward w).log
      = w.log ++ (Call.arm_backward ::
          (if w.box_swstates.int_switch1 = false then []
           else [Call.stimulus
                  (if w.box_swstates.ext_switch1 = true then sa_arm_alarm else sa_arm_off)])) := by
  by_cases h : w.box_swstates.int_switch1 = false
  · rw [arm_movement_backward_low w h, if_pos h]
  · have h1 : w.box_swstates.int_switch1 = true := by simpa using h
    rw [arm_movement_backward_high w h1, if_neg h]
    simp [world_next_state]

theorem setup_timer_action_log (w : World) (usec : Int) (a : statemachine_actions_t)
    (ok : Bool) :
    (setup_timer_action w usec a ok).2.log
        = w.log ++ (if ok = true then [Call.timer { usec := usec, action := a }] else [])
      ∧ (setup_timer_action w usec a ok).2.box_swstates = w.box_swstates
      ∧ (setup_timer_action w usec a ok).2.m = w.m := by
  cases ok <;> simp [setup_timer_action]

theorem set_box_swstate_changed (w : World) (pin_int pin_ext : Bool)
    (h : pin_int ≠ w.box_swstates.int_switch1 ∨ pin_ext ≠ w.box_swstates.ext_switch1) :
    (set_box_swstate w pin_int pin_ext).log
        = w.log
          ++ (if w.arm_movement_state = am_fwd then [Call.usleep ARM_MOVEMENT_FWD_OVERRUN_USEC]
              else [])
          ++ [Call.sample, Call.stimulus (spec_sensor_action pin_int pin_ext)]
      ∧ (set_box_swstate w pin_int pin_ext).box_swstates
          = { int_switch1 := pin_int, ext_switch1 := pin_ext }
      ∧ (set_box_swstate w pin_int pin_ext).m
          = (statemachine_next_state w.m (spec_sensor_action pin_int pin_ext) none).m := by
  by_cases hf : w.arm_movement_state = am_fwd <;>
    cases pin_int <;> cases pin_ext <;>
    simp [set_box_swstate, hf, h, world_next_state, spec_sensor_action] <;>
    simp_all

theorem set_box_swstate_unchanged (w : World) (pin_int pin_ext : Bool)
    (h : ¬ (pin_int ≠ w.box_swstates.int_switch1 ∨ pin_ext ≠ w.box_swstates.ext_switch1)) :
    (set_box_swstate w pin_int pin_ext).log
        = w.log
          ++ (if w.arm_movement_state = am_fwd then [Call.usleep ARM_MOVEMENT_FWD_OVERRUN_USEC]
              else [])
          ++ [Call.sample]
      ∧ (set_box_swstate w pin_int pin_ext).box_swstates = w.box_swstates
      ∧ (set_box_swstate w pin_int pin_ext).m = w.m := by
  by_cases hf : w.arm_movement_state = am_fwd <;>
    simp [set_box_swstate, hf, h]

/-! ## main.c: one pass of the loop -/

theorem armed_timers_append (l₁ l₂ : List Call) :
    armed_timers (l₁ ++ l₂) = armed_timers l₁ ++ armed_timers l₂ := by
  simp [armed_timers, List.filterMap_append]

theorem motor_calls_append (l₁ l₂ : List Call) :
    motor_calls (l₁ ++ l₂) = motor_calls l₁ ++ motor_calls l₂ := by
  simp [motor_calls, List.filter_append]

theorem stimuli_append (l₁ l₂ : List Call) :
    stimuli (l₁ ++ l₂) = stimuli l₁ ++ stimuli l₂ := by
  simp [stimuli, List.filterMap_append]

theorem set_box_swstate_log (w : World) (pin_int pin_ext : Bool) :
    (set_box_swstate w pin_int pin_ext).log
      = w.log
        ++ (if w.arm_movement_state = am_fwd then [Call.usleep ARM_MOVEMENT_FWD_OVERRUN_USEC]
            else [])
        ++ (Call.sample ::
            (if pin_int ≠ w.box_swstates.int_switch1 ∨ pin_ext ≠ w.box_swstates.ext_switch1
             then [Call.stimulus (spec_sensor_action pin_int pin_ext)] else [])) := by
  by_cases h : pin_int ≠ w.box_swstates.int_switch1 ∨ pin_ext ≠ w.box_swstates.ext_switch1
  · rw [(set_box_swstate_changed w pin_int pin_ext h).1, if_pos h]
  · rw [(set_box_swstate_unchanged w pin_int pin_ext h).1, if_neg h]

theorem timers_stop (w : World) :
    armed_timers (arm_movement_stop w).log = armed_timers w.log := by
  rw [arm_movement_stop_log, armed_timers_append]; simp [armed_timers]

theorem timers_forward (w : World) :
    armed_timers (arm_movement_forward w).log = armed_timers w.log := by
  rw [arm_movement_forward_log, armed_timers_append]; simp [armed_timers]

theorem timers_backward (w : World) :
    armed_timers (arm_movement_backward w).log = armed_timers w.log := by
  rw [arm_movement_backward_log, armed_timers_append]
  split <;> simp [armed_timers]

theorem timers_sample (w : World) (pin_int pin_ext : Bool) :
    armed_timers (set_box_swstate w pin_int pin_ext).log = armed_timers w.log := by
  rw [set_box_swstate_log, armed_timers_append, armed_timers_append]
  split <;> split <;> simp [armed_timers]

theorem timers_setup (w : World) (usec : Int) (a : statemachine_actions_t) (ok : Bool) :
    armed_timers (setup_timer_action w usec a ok).2.log
      = armed_timers w.log ++ (if ok = true then [{ usec := usec, action := a }] else []) := by
  rw [(setup_timer_action_log w usec a ok).1, armed_timers_append]
  cases ok <;> simp [armed_timers]

theorem get_random_number_some (rand min_num max_num : Int)
    (hmin : -2147483648 ≤ min_num) (hlt : min_num < max_num)
    (hmax : max_num < 2147483647) :
    ∃ r, get_random_number rand min_num max_num = some r := by
  have hd : wrap_int (wrap_int (max_num + 1) - min_num) ≠ 0 := by
    unfold wrap_int; omega
  simp only [get_random_number, hlt, if_true, if_neg hd]
  exact ⟨_, rfl⟩

theorem motor_stop (w : World) :
    motor_calls (arm_movement_stop w).log = motor_calls w.log ++ [Call.arm_stop] := by
  rw [arm_movement_stop_log, motor_calls_append]; simp [motor_calls]

theorem motor_forward (w : World) :
    motor_calls (arm_movement_forward w).log = motor_calls w.log ++ [Call.arm_forward] := by
  rw [arm_movement_forward_log, motor_calls_append]; simp [motor_calls]

theorem motor_backward (w : World) :
    motor_calls (arm_movement_backward w).log = motor_calls w.log ++ [Call.arm_backward] := by
  rw [arm_movement_backward_log, motor_calls_append]
  split <;> simp [motor_calls]

theorem motor_sample (w : World) (pin_int pin_ext : Bool) :
    motor_calls (set_box_swstate w pin_int pin_ext).log = motor_calls w.log := by
  rw [set_box_swstate_log, motor_calls_append, motor_calls_append]
  split <;> split <;> simp [motor_calls]

theorem motor_setup (w : World) (usec : Int) (a : statemachine_actions_t) (ok : Bool) :
    motor_calls (setup_timer_action w usec a ok).2.log = motor_calls w.log := by
  rw [(setup_timer_action_log w usec a ok).1, motor_calls_append]
  cases ok <;> simp [motor_calls]

theorem sample_mem_log (w : World) (pin_int pin_ext : Bool) :
    Call.sample ∈ (set_box_swstate w pin_int pin_ext).log := by
  rw [set_box_swstate_log]
  simp

/-- C28. Actuation per state: one pass of the loop on the observed state
calls exactly the motor command of section 4.4: stop for Idle,
TimeoutThenReset, SuspicionSetup, Suspicion2, SlowFinger1 and BeforeShutdown;
forward for Alarming, Scare1, Scare3, Offence, Suspicion1 and SlowFingerSetup;
backward for Resetting, Scare2, ResettingRetry, Suspicion3 and SlowFinger2;
for ScareSetup backward when the stored internal switch reading is low and
forward otherwise. Powerup calls no motor command and samples the sensors,
BeforeShutdown also stimulates ShutdownDone, and the loop is finished on
Shutdown and on no other state. -/
theorem C28_actuation_per_state (w : World) (s : statemachine_states_t) (i : thread_inputs) :
    ∃ r calls, statemachine_thread_entry_switch w s i = some r
      ∧ pass_calls w s i = some calls
      ∧ motor_calls calls = spec_motor s (!w.box_swstates.int_switch1)
      ∧ (r.finished = true ↔ s = ss_shutdown)
      ∧ (s = ss_powerup → Call.sample ∈ calls)
      ∧ (s = ss_before_shutdown →
          stimuli calls = [sa_shutdown_done]
            ∧ r.w.m = (statemachine_next_state w.m sa_shutdown_done none).m)
      ∧ (s = ss_shutdown → calls = []) := by
  cases s
  case ss_suspicion_setup =>
    obtain ⟨x, hx⟩ := get_random_number_some i.rand STATE_SUSPICION_PEEK_MIN_USEC
      STATE_SUSPICION_PEEK_MAX_USEC (by decide) (by decide) (by decide)
    refine ⟨_, _, by simp only [statemachine_thread_entry_switch, hx]; rfl,
      by simp only [pass_calls, statemachine_thread_entry_switch, hx]; rfl, ?_⟩
    simp only [motor_stop, motor_setup]
    simp [motor_calls, spec_motor]
  case ss_suspicion_step1 =>
    obtain ⟨x, hx⟩ := get_random_number_some i.rand STATE_SUSPICION_PEEK_OPEN_MIN_USEC
      STATE_SUSPICION_PEEK_OPEN_MAX_USEC (by decide) (by decide) (by decide)
    refine ⟨_, _, by simp only [statemachine_thread_entry_switch, hx]; rfl,
      by simp only [pass_calls, statemachine_thread_entry_switch, hx]; rfl, ?_⟩
    simp only [motor_forward, motor_setup]
    simp [motor_calls, spec_motor]
  case ss_suspicion_step2 =>
    obtain ⟨x, hx⟩ := get_random_number_some i.rand STATE_SUSPICION_PEEK_LEN_MIN_USEC
      STATE_SUSPICION_PEEK_LEN_MAX_USEC (by decide) (by decide) (by decide)
    refine ⟨_, _, by simp only [statemachine_thread_entry_switch, hx]; rfl,
      by simp only [pass_calls, statemachine_thread_entry_switch, hx]; rfl, ?_⟩
    simp only [motor_stop, motor_setup]
    simp [motor_calls, spec_motor]
  case ss_scare_setup =>
    refine ⟨_, _, rfl, rfl, ?_⟩
    simp only [statemachine_thread_entry_switch, (setup_timer_action_log _ _ _ _).2.1]
    cases hi : w.box_swstates.int_switch1
    · simp only [if_true, motor_backward, motor_setup]
      simp [motor_calls, spec_motor]
    · simp only [Bool.true_eq_false, if_false, motor_forward, motor_setup]
      simp [motor_calls, spec_motor]
  case ss_powerup =>
    refine ⟨_, _, rfl, rfl, ?_⟩
    simp only [statemachine_thread_entry_switch, motor_sample]
    simp [sample_mem_log, motor_calls, spec_motor]
  case ss_before_shutdown =>
    refine ⟨_, _, rfl, rfl, ?_⟩
    simp only [statemachine_thread_entry_switch, motor_calls_append, stimuli_append,
      motor_stop]
    simp [arm_movement_stop, motor_calls, stimuli, spec_motor]
    rfl
  all_goals
    refine ⟨_, _, rfl, rfl, ?_⟩
    simp only [statemachine_thread_entry_switch, motor_stop, motor_forward, motor_backward,
      motor_setup]
    simp [motor_calls, spec_motor]

/-- C28 on ScareSetup with the stored internal switch reading high (the exit
timer, then forward) and on BeforeShutdown (stop, then ShutdownDone). -/
theorem C28_actuation_per_state_witness :
    pass_calls (sample_world ss_scare_setup true false) ss_scare_setup (sample_inputs 0)
        = some [Call.timer { usec := 3000000, action := sa_scare_exit }, Call.arm_forward]
      ∧ pass_calls (sample_world ss_before_shutdown false false) ss_before_shutdown
          (sample_inputs 0) = some [Call.arm_stop, Call.stimulus sa_shutdown_done]
      ∧ (∃ calls, pass_calls (sample_world ss_scare_setup true false) ss_scare_setup
            (sample_inputs 0) = some calls
          ∧ motor_calls calls = [Call.arm_forward])
      ∧ ∃ calls, pass_calls (sample_world ss_before_shutdown false false) ss_before_shutdown
            (sample_inputs 0) = some calls
          ∧ stimuli calls = [sa_shutdown_done] :=
  ⟨by decide, by decide,
    (C28_actuation_per_state (sample_world ss_scare_setup true false) ss_scare_setup
      (sample_inputs 0)).elim
      (fun _ h => h.imp (fun _ hc => ⟨hc.2.1, hc.2.2.1.trans (by decide)⟩)),
    (C28_actuation_per_state (sample_world ss_before_shutdown false false) ss_before_shutdown
      (sample_inputs 0)).elim
      (fun _ h => h.imp (fun _ hc => ⟨hc.2.1, (hc.2.2.2.2.2.1 rfl).1⟩))⟩

/-! ## main.c: the sensors and the backward movement -/

/-- C29. Sensor combinations map to exactly one action: when
`set_box_swstate` samples a pair (internal, external) that differs from the
stored pair, it stores the sampled pair and makes exactly one call of
`statemachine_next_state`, with ArmReset for (low, low), ArmAlarm for (high,
high), ArmMotion for (low, high) and ArmOff for (high, low); the machine is
the one left by that single stimulus. -/
theorem C29_sensor_stimulus (w : World) (pin_int pin_ext : Bool)
    (h : pin_int ≠ w.box_swstates.int_switch1 ∨ pin_ext ≠ w.box_swstates.ext_switch1) :
    stimuli (set_box_swstate w pin_int pin_ext).log
        = stimuli w.log ++ [spec_sensor_action pin_int pin_ext]
      ∧ (set_box_swstate w pin_int pin_ext).box_swstates
          = { int_switch1 := pin_int, ext_switch1 := pin_ext }
      ∧ (set_box_swstate w pin_int pin_ext).m
          = (statemachine_next_state w.m (spec_sensor_action pin_int pin_ext) none).m := by
  obtain ⟨hlog, hbox, hm⟩ := set_box_swstate_changed w pin_int pin_ext h
  refine ⟨?_, hbox, hm⟩
  rw [hlog, stimuli_append, stimuli_append]
  split <;> simp [stimuli]

/-- C29 with (low, low) stored and (low, high) sampled in Powerup: the one
stimulus is ArmMotion and the machine moves to Alarming. -/
theorem C29_sensor_stimulus_witness :
    stimuli (set_box_swstate (sample_world ss_powerup false false) false true).log
        = [sa_arm_motion]
      ∧ (set_box_swstate (sample_world ss_powerup false false) false true).box_swstates
          = { int_switch1 := false, ext_switch1 := true }
      ∧ (set_box_swstate (sample_world ss_powerup false false) false true).m.state
          = ss_alarming :=
  have h := C29_sensor_stimulus (sample_world ss_powerup false false) false true
    (by decide)
  ⟨h.1.trans (by decide), h.2.1, (congrArg Machine.state h.2.2).trans (by decide)⟩

/-- C30. Backward no-ops at the inward limit: when the stored internal switch
reading is high, `arm_movement_backward` writes no pin, leaves
`arm_movement_state` as it was and makes one call of
`statemachine_next_state`, with ArmAlarm if the stored external reading is
high and ArmOff otherwise; when the stored internal reading is low it drives
the motor backward (IN1 high, IN2 low, EN high, state `am_bwd`) and makes no
call of `statemachine_next_state`. -/
theorem C30_backward_at_limit (w : World) :
    (w.box_swstates.int_switch1 = true →
        (arm_movement_backward w).pin_mtr_en = w.pin_mtr_en
          ∧ (arm_movement_backward w).pin_mtr_in1 = w.pin_mtr_in1
          ∧ (arm_movement_backward w).pin_mtr_in2 = w.pin_mtr_in2
          ∧ (arm_movement_backward w).arm_movement_state = w.arm_movement_state
          ∧ stimuli (arm_movement_backward w).log
              = stimuli w.log
                ++ [if w.box_swstates.ext_switch1 = true then sa_arm_alarm else sa_arm_off]
          ∧ (arm_movement_backward w).m
              = (statemachine_next_state w.m
                  (if w.box_swstates.ext_switch1 = true then sa_arm_alarm else sa_arm_off)
                  none).m)
      ∧ (w.box_swstates.int_switch1 = false →
        (arm_movement_backward w).pin_mtr_en = true
          ∧ (arm_movement_backward w).pin_mtr_in1 = true
          ∧ (arm_movement_backward w).pin_mtr_in2 = false
          ∧ (arm_movement_backward w).arm_movement_state = am_bwd
          ∧ stimuli (arm_movement_backward w).log = stimuli w.log
          ∧ (arm_movement_backward w).m = w.m) := by
  constructor
  · intro h
    rw [arm_movement_backward_high w h]
    refine ⟨rfl, rfl, rfl, rfl, ?_, rfl⟩
    simp [world_next_state, stimuli]
  · intro h
    rw [arm_movement_backward_low w h]
    refine ⟨rfl, rfl, rfl, rfl, ?_, rfl⟩
    simp [stimuli]

/-- C30 in Resetting: with the stored readings (high, low) the motor is left
alone and ArmOff takes the machine to Idle; with (low, low) the motor runs
backward and the machine stays in Resetting. -/
theorem C30_backward_at_limit_witness :
    (arm_movement_backward (sample_world ss_reseting true false)).pin_mtr_en = false
      ∧ stimuli (arm_movement_backward (sample_world ss_reseting true false)).log
          = [sa_arm_off]
      ∧ (arm_movement_backward (sample_world ss_reseting true false)).m.state = ss_idle
      ∧ (arm_movement_backward (sample_world ss_reseting false false)).arm_movement_state
          = am_bwd
      ∧ stimuli (arm_movement_backward (sample_world ss_reseting false false)).log = [] :=
  have h1 := (C30_backward_at_limit (sample_world ss_reseting true false)).1 rfl
  have h2 := (C30_backward_at_limit (sample_world ss_reseting false false)).2 rfl
  ⟨h1.1, h1.2.2.2.2.1.trans (by decide),
    (congrArg Machine.state h1.2.2.2.2.2).trans (by decide), h2.2.2.2.1, h2.2.2.2.2.1⟩

/-! ## main.c: the range and the divisor of the random delay -/

theorem get_random_number_divisor_def (min_num max_num : Int) :
    get_random_number_divisor min_num max_num
      = wrap_int ((if min_num < max_num then wrap_int (max_num + 1) else min_num)
          - (if min_num < max_num then min_num else wrap_int (max_num + 1))) := rfl

theorem get_random_number_of_divisor (rand min_num max_num : Int) :
    get_random_number rand min_num max_num
      = if get_random_number_divisor min_num max_num = 0 then none
        else some (wrap_int (Int.tmod rand (get_random_number_divisor min_num max_num)
              + (if min_num < max_num then min_num else wrap_int (max_num + 1)))) := rfl

theorem get_random_number_eq (rand min_num max_num : Int) (hr : 0 ≤ rand)
    (hmin : -2147483648 ≤ min_num) (hlt : min_num < max_num)
    (hmax : max_num < 2147483647) (hn : max_num - min_num < 2147483647) :
    get_random_number rand min_num max_num
      = some (min_num + rand % (max_num - min_num + 1)) := by
  have hhi : wrap_int (max_num + 1) = max_num + 1 := wrap_int_id _ (by omega) (by omega)
  have hd : wrap_int (max_num + 1 - min_num) = max_num - min_num + 1 := by
    rw [wrap_int_id _ (by omega) (by omega)]; omega
  have hpos : 0 < max_num - min_num + 1 := by omega
  simp only [get_random_number, hlt, if_true, hhi, hd, if_neg (ne_of_gt hpos)]
  rw [Int.tmod_eq_emod hr (le_of_lt hpos)]
  have h0 := Int.emod_nonneg rand (ne_of_gt hpos)
  have h1 := Int.emod_lt_of_pos rand hpos
  rw [wrap_int_id _ (by omega) (by omega)]
  congr 1
  omega

/-- C31 as stated fails: for the pair (-2, 2147483646), with max + 1
representable, the difference `hi_num - low_num` is 2147483649, which is no
`int`; the divisor in use is -2147483647 and no value of `rand()` makes the
function return max. -/
theorem C31_max_not_returned :
    (-2 : Int) < 2147483646
      ∧ (2147483646 : Int) + 1 < 2147483648
      ∧ get_random_number_divisor (-2) 2147483646 = -2147483647
      ∧ ∀ rand : Int, 0 ≤ rand →
          get_random_number rand (-2) 2147483646 ≠ some 2147483646 := by
  refine ⟨by decide, by decide, by decide, ?_⟩
  intro rand hr
  have hd : get_random_number_divisor (-2) 2147483646 = -2147483647 := by decide
  rw [get_random_number_of_divisor, hd, if_neg (by decide), Int.tmod_neg]
  have h0 : 0 ≤ Int.tmod rand 2147483647 := Int.tmod_nonneg _ hr
  have h1 : Int.tmod rand 2147483647 < 2147483647 := Int.tmod_lt_of_pos rand (by decide)
  simp only [show ((-2 : Int) < 2147483646) from by decide, if_true]
  rw [wrap_int_id _ (by omega) (by omega)]
  intro h
  have := Option.some.inj h
  omega

/-- C31, amended. For every pair of `int` values with min < max, max + 1
representable and max - min + 1 representable (a range of at most
`RAND_MAX` values), `get_random_number(min, max)` lies in the range from min
to max for every non-negative value of `rand()`, and every integer v of that
range, max included, is returned for the value v - min of `rand()`, which
lies in 0..`RAND_MAX`. -/
theorem C31_sampler_includes_max (min_num max_num : Int)
    (hmin : -2147483648 ≤ min_num) (hlt : min_num < max_num)
    (hmax : max_num < 2147483647) (hn : max_num - min_num < 2147483647) :
    (∀ rand : Int, 0 ≤ rand →
        ∃ r, get_random_number rand min_num max_num = some r ∧ min_num ≤ r ∧ r ≤ max_num)
      ∧ ∀ v : Int, min_num ≤ v → v ≤ max_num →
          0 ≤ v - min_num ∧ v - min_num ≤ RAND_MAX
            ∧ get_random_number (v - min_num) min_num max_num = some v := by
  refine ⟨fun rand hr => get_random_number_in_range rand min_num max_num hr hmin hlt hmax, ?_⟩
  intro v hv0 hv1
  refine ⟨by omega, by unfold RAND_MAX; omega, ?_⟩
  rw [get_random_number_eq _ _ _ (by omega) hmin hlt hmax hn,
    Int.emod_eq_of_lt (by omega) (by omega)]
  congr 1
  omega

/-- C31 amended, for the peek delay of 400 ms to 600 ms: the largest delay
600000 is returned when `rand()` returns 200000. -/
theorem C31_sampler_includes_max_witness :
    get_random_number (600000 - 400000) 400000 600000 = some 600000
      ∧ ∃ r, get_random_number 123456789 400000 600000 = some r
          ∧ 400000 ≤ r ∧ r ≤ 600000 :=
  have h := C31_sampler_includes_max 400000 600000 (by decide) (by decide) (by decide)
    (by decide)
  ⟨(h.2 600000 (by decide) (by decide)).2.2, h.1 123456789 (by decide)⟩

/-- C33 as stated fails at the ends of the `int` range: for the pair
(-2147483648, 2147483647), with min < max, `max_num + 1` and the difference
wrap around, the divisor is 0 and the call has no result; for the pair
(-2, 2147483646), with min < max, the divisor is negative. -/
theorem C33_divisor_wraps :
    (-2147483648 : Int) < 2147483647
      ∧ (-2147483648 : Int) ≠ 2147483647 + 1
      ∧ get_random_number_divisor (-2147483648) 2147483647 = 0
      ∧ get_random_number 0 (-2147483648) 2147483647 = none
      ∧ (-2 : Int) < 2147483646
      ∧ get_random_number_divisor (-2) 2147483646 = -2147483647 := by
  refine ⟨by decide, by decide, by decide, by decide, by decide, by decide⟩

/-- C33, amended. For `int` values min and max whose difference max - min
lies in -2147483648 .. 2147483646 (so that `hi_num - low_num` is
representable), the divisor is max - min + 1 > 0 for min < max, is
min - max - 1 > 0 for min >= max + 2, is -1 for min = max and is 0 for
min = max + 1; it is 0, and the call without result, exactly when
min = max + 1, so that for min < max the division always has a result. -/
theorem C33_divisor_cases (min_num max_num : Int)
    (hd0 : -2147483648 ≤ max_num - min_num) (hd1 : max_num - min_num ≤ 2147483646) :
    (min_num < max_num →
        get_random_number_divisor min_num max_num = max_num - min_num + 1
          ∧ 0 < get_random_number_divisor min_num max_num)
      ∧ (max_num + 2 ≤ min_num →
        get_random_number_divisor min_num max_num = min_num - max_num - 1
          ∧ 0 < get_random_number_divisor min_num max_num)
      ∧ (min_num = max_num → get_random_number_divisor min_num max_num = -1)
      ∧ (min_num = max_num + 1 → get_random_number_divisor min_num max_num = 0)
      ∧ (get_random_number_divisor min_num max_num = 0 ↔ min_num = max_num + 1)
      ∧ (∀ rand : Int, get_random_number rand min_num max_num = none
          ↔ min_num = max_num + 1)
      ∧ (min_num < max_num →
          ∀ rand : Int, ∃ r, get_random_number rand min_num max_num = some r) := by
  have hzero : get_random_number_divisor min_num max_num = 0 ↔ min_num = max_num + 1 := by
    simp only [get_random_number_divisor_def, wrap_int]
    split_ifs <;> omega
  have hnone : ∀ rand : Int, get_random_number rand min_num max_num = none
      ↔ min_num = max_num + 1 := by
    intro rand
    rw [get_random_number_of_divisor, ← hzero]
    split_ifs with h <;> simp [h]
  refine ⟨?_, ?_, ?_, ?_, hzero, hnone, ?_⟩
  · intro h
    simp only [get_random_number_divisor_def, wrap_int, if_pos h]
    omega
  · intro h
    have hnot : ¬ min_num < max_num := by omega
    simp only [get_random_number_divisor_def, wrap_int, if_neg hnot]
    omega
  · intro h
    have hnot : ¬ min_num < max_num := by omega
    simp only [get_random_number_divisor_def, wrap_int, if_neg hnot]
    omega
  · intro h
    exact hzero.mpr h
  · intro h rand
    cases hres : get_random_number rand min_num max_num with
    | none => exact absurd ((hnone rand).mp hres) (by omega)
    | some r => exact ⟨r, rfl⟩

/-- C33 amended, on the pairs (1000000, 12000000), (5, 5), (6, 5) and
(9, 5). -/
theorem C33_divisor_cases_witness :
    get_random_number_divisor 1000000 12000000 = 11000001
      ∧ get_random_number_divisor 5 5 = -1
      ∧ get_random_number_divisor 6 5 = 0
      ∧ get_random_number 77 6 5 = none
      ∧ get_random_number_divisor 9 5 = 3 :=
  ⟨((C33_divisor_cases 1000000 12000000 (by decide) (by decide)).1 (by decide)).1,
    (C33_divisor_cases 5 5 (by decide) (by decide)).2.2.1 rfl,
    (C33_divisor_cases 6 5 (by decide) (by decide)).2.2.2.1 rfl,
    ((C33_divisor_cases 6 5 (by decide) (by decide)).2.2.2.2.2.1 77).mpr rfl,
    ((C33_divisor_cases 9 5 (by decide) (by decide)).2.1 (by decide)).1⟩

/-! ## main.c: the distribution of the random delay -/

theorem rand_count_eq (R : Nat) (min_num max_num : Int)
    (hmin : -2147483648 ≤ min_num) (hlt : min_num < max_num)
    (hmax : max_num < 2147483647) (hn : max_num - min_num < 2147483647)
    (k : Nat) (hk : (k : Int) < max_num - min_num + 1) :
    rand_count R min_num max_num (min_num + k)
      = (R + 1) / (max_num - min_num + 1).toNat
        + if k < (R + 1) % (max_num - min_num + 1).toNat then 1 else 0 := by
  obtain ⟨nn, hnn⟩ : ∃ nn : Nat, (nn : Int) = max_num - min_num + 1 :=
    ⟨(max_num - min_num + 1).toNat, Int.toNat_of_nonneg (by omega)⟩
  have htn : (max_num - min_num + 1).toNat = nn := by omega
  rw [htn]
  have hpos : 0 < nn := by omega
  have hkn : k < nn := by omega
  have key : ∀ r : Nat,
      get_random_number (r : Int) min_num max_num = some (min_num + k)
        ↔ r ≡ k [MOD nn] := by
    intro r
    rw [get_random_number_eq _ _ _ (Int.natCast_nonneg r) hmin hlt hmax hn, ← hnn,
      ← Int.ofNat_emod]
    unfold Nat.ModEq
    rw [Nat.mod_eq_of_lt hkn]
    constructor
    · intro h
      have := Option.some.inj h
      omega
    · intro h
      rw [h]
  have hcount := Nat.count_modEq_card (b := R + 1) hpos k
  rw [Nat.mod_eq_of_lt hkn] at hcount
  rw [← hcount]
  unfold rand_count
  apply le_antisymm
  · exact Nat.count_mono_left (fun r h => (key r).mp h)
  · exact Nat.count_mono_left (fun r h => (key r).mpr h)

theorem get_random_number_widest (rand : Int) :
    get_random_number rand (-2147483648) 2147483646 = some (-2147483648) := by
  have hd : get_random_number_divisor (-2147483648) 2147483646 = -1 := by decide
  rw [get_random_number_of_divisor, hd, if_neg (by decide), Int.tmod_neg, Int.tmod_one]
  decide

/-- C32 as stated fails: for the pair (-2147483648, 2147483646), with
min < max, the difference `hi_num - low_num` wraps to -1 and every value of
`rand()` gives min, so that with `RAND_MAX` = 2147483647 the output min
receives all 2147483648 values and the output min + 1 none. -/
theorem C32_counts_differ_by_more :
    (-2147483648 : Int) < 2147483646
      ∧ rand_count 2147483647 (-2147483648) 2147483646 (-2147483648) = 2147483648
      ∧ rand_count 2147483647 (-2147483648) 2147483646 (-2147483648 + 1) = 0 := by
  refine ⟨by decide, ?_, ?_⟩
  · unfold rand_count
    exact Nat.count_iff_forall.mpr
      (fun r _ => get_random_number_widest r)
  · unfold rand_count
    apply Nat.count_iff_forall_not.mpr
    intro r _
    rw [get_random_number_widest r]
    decide

/-- C32, amended. For `int` values min < max with max + 1 and
n = max - min + 1 representable, and `rand()` ranging over 0..R (R the
`RAND_MAX` of the C library), the number of values of `rand()` that
`get_random_number` maps to the output min + k, for k < n, is
(R + 1) / n, plus one for the lowest (R + 1) mod n outputs; so the count is
non-increasing in k, two counts differ by at most one, and the counts are all
equal exactly when n divides R + 1. -/
theorem C32_remainder_bias (R : Nat) (min_num max_num : Int)
    (hmin : -2147483648 ≤ min_num) (hlt : min_num < max_num)
    (hmax : max_num < 2147483647) (hn : max_num - min_num < 2147483647) :
    (∀ k : Nat, (k : Int) < max_num - min_num + 1 →
        rand_count R min_num max_num (min_num + k)
          = (R + 1) / (max_num - min_num + 1).toNat
            + if k < (R + 1) % (max_num - min_num + 1).toNat then 1 else 0)
      ∧ (∀ k k' : Nat, k ≤ k' → (k' : Int) < max_num - min_num + 1 →
          rand_count R min_num max_num (min_num + k')
              ≤ rand_count R min_num max_num (min_num + k)
            ∧ rand_count R min_num max_num (min_num + k)
              ≤ rand_count R min_num max_num (min_num + k') + 1)
      ∧ ((∀ k k' : Nat, (k : Int) < max_num - min_num + 1 →
            (k' : Int) < max_num - min_num + 1 →
            rand_count R min_num max_num (min_num + k)
              = rand_count R min_num max_num (min_num + k'))
          ↔ (max_num - min_num + 1).toNat ∣ R + 1) := by
  have hcount := rand_count_eq R min_num max_num hmin hlt hmax hn
  have hpos : 0 < (max_num - min_num + 1).toNat := by omega
  refine ⟨hcount, ?_, ?_⟩
  · intro k k' hkk hk'
    rw [hcount k (by omega), hcount k' hk']
    constructor
    · split_ifs <;> omega
    · split_ifs <;> omega
  · constructor
    · intro h
      have h0 := h 0 ((max_num - min_num + 1).toNat - 1) (by omega) (by omega)
      rw [hcount 0 (by omega), hcount _ (by omega)] at h0
      have hlt' := Nat.mod_lt (R + 1) hpos
      apply Nat.dvd_of_mod_eq_zero
      by_contra hne
      rw [if_pos (Nat.pos_of_ne_zero hne), if_neg (by omega)] at h0
      omega
    · intro h k k' hk hk'
      rw [hcount k hk, hcount k' hk', Nat.mod_eq_zero_of_dvd h]
      simp

/-- C32 amended, for the peek delay of 1 s to 12 s (n = 11000001) and
`RAND_MAX` = 2147483647: the shortest delay is drawn for 196 values of
`rand()`, the longest for 195. -/
theorem C32_remainder_bias_witness :
    rand_count 2147483647 1000000 12000000 (1000000 + (0 : Nat)) = 196
      ∧ rand_count 2147483647 1000000 12000000 (1000000 + (11000000 : Nat)) = 195 :=
  have h := (C32_remainder_bias 2147483647 1000000 12000000 (by decide) (by decide)
    (by decide) (by decide)).1
  ⟨(h 0 (by decide)).trans (by decide), (h 11000000 (by decide)).trans (by decide)⟩

/-! ## The timers a state arms, the idle machine, the silent sample, reachability -/

theorem pass_calls_timer_actions (w : World) (s : statemachine_states_t) (i : thread_inputs)
    (calls : List Call) (hc : pass_calls w s i = some calls) :
    ∀ t ∈ armed_timers calls, t.action ∈ (spec_timers s).map Prod.fst := by
  obtain ⟨rand, ok1, ok2, pin_int, pin_ext⟩ := i
  cases s
  case ss_suspicion_setup =>
    cases hx : get_random_number rand STATE_SUSPICION_PEEK_MIN_USEC
        STATE_SUSPICION_PEEK_MAX_USEC with
    | none => simp [pass_calls, statemachine_thread_entry_switch, hx] at hc
    | some x =>
      simp only [pass_calls, statemachine_thread_entry_switch, hx, Option.map_some',
        Option.some.injEq] at hc
      subst hc
      simp only [timers_stop, timers_setup]
      cases ok1 <;> cases ok2 <;> simp [armed_timers, spec_timers]
  case ss_suspicion_step1 =>
    cases hx : get_random_number rand STATE_SUSPICION_PEEK_OPEN_MIN_USEC
        STATE_SUSPICION_PEEK_OPEN_MAX_USEC with
    | none => simp [pass_calls, statemachine_thread_entry_switch, hx] at hc
    | some x =>
      simp only [pass_calls, statemachine_thread_entry_switch, hx, Option.map_some',
        Option.some.injEq] at hc
      subst hc
      simp only [timers_forward, timers_setup]
      cases ok1 <;> simp [armed_timers, spec_timers]
  case ss_suspicion_step2 =>
    cases hx : get_random_number rand STATE_SUSPICION_PEEK_LEN_MIN_USEC
        STATE_SUSPICION_PEEK_LEN_MAX_USEC with
    | none => simp [pass_calls, statemachine_thread_entry_switch, hx] at hc
    | some x =>
      simp only [pass_calls, statemachine_thread_entry_switch, hx, Option.map_some',
        Option.some.injEq] at hc
      subst hc
      simp only [timers_stop, timers_setup]
      cases ok1 <;> simp [armed_timers, spec_timers]
  all_goals
    simp only [pass_calls, statemachine_thread_entry_switch, Option.map_some',
      Option.some.injEq] at hc
    subst hc
    try simp only [timers_stop, timers_forward, timers_backward, timers_sample, timers_setup,
      apply_ite World.log, apply_ite armed_timers, armed_timers_append]
    cases ok1 <;> simp [armed_timers, spec_timers]

theorem switch_armed_live (s : statemachine_states_t) (a : statemachine_actions_t) :
    a ∈ (spec_timers s).map Prod.fst →
      spec_table s a = some (statemachine_next_state_switch s a).1
        ∧ (statemachine_next_state_switch s a).1 ≠ s
        ∧ (statemachine_next_state_switch s a).2 ≠ EINVAL := by
  cases s <;> cases a <;> decide

/-- C34. Every timer a state arms is live in that state: for every timer that
one pass of the loop starts on the observed state S, a call of
`statemachine_next_state` with the timer's action in a machine that is still
in S is an entry listed in the table of section 4.2, does not return
`EINVAL`, leads to a state different from S and sets the flag of every
registered client. -/
theorem C34_armed_timers_live (w : World) (s : statemachine_states_t) (i : thread_inputs)
    (calls : List Call) (t : state_timer_action_t) (m : Machine)
    (pn : Option statemachine_states_t)
    (hc : pass_calls w s i = some calls) (ht : t ∈ armed_timers calls)
    (hm : m.state = s) :
    spec_table s t.action = some (statemachine_next_state m t.action pn).m.state
      ∧ (statemachine_next_state m t.action pn).m.state ≠ s
      ∧ (statemachine_next_state m t.action pn).ret ≠ EINVAL
      ∧ ∀ p ∈ m.sscids_head,
          ((statemachine_next_state m t.action pn).m.mem p).state_haschanged = true := by
  obtain ⟨h1, h2, h3⟩ :=
    switch_armed_live s t.action (pass_calls_timer_actions w s i calls hc t ht)
  subst hm
  rw [next_state_m_state, next_state_ret]
  refine ⟨h1, h2, h3, ?_⟩
  intro p hp
  exact next_state_flag_of_change m t.action pn p hp (by rw [next_state_m_state]; exact h2)

/-- C34 on the peek timer that SuspicionSetup starts with `rand()` returning
77: fired in SuspicionSetup it leads to Suspicion1. -/
theorem C34_armed_timers_live_witness :
    pass_calls (sample_world ss_suspicion_setup false false) ss_suspicion_setup
        (sample_inputs 77)
      = some [Call.timer { usec := 45000000, action := sa_suspicion_exit },
              Call.timer { usec := 1000077, action := sa_suspicion_timeout },
              Call.arm_stop]
      ∧ (statemachine_next_state (sample_machine ss_suspicion_setup) sa_suspicion_timeout
          none).m.state = ss_suspicion_step1
      ∧ (statemachine_next_state (sample_machine ss_suspicion_setup) sa_suspicion_timeout
          none).m.state ≠ ss_suspicion_setup :=
  have h := C34_armed_timers_live (sample_world ss_suspicion_setup false false)
    ss_suspicion_setup (sample_inputs 77)
    [Call.timer { usec := 45000000, action := sa_suspicion_exit },
     Call.timer { usec := 1000077, action := sa_suspicion_timeout }, Call.arm_stop]
    { usec := 1000077, action := sa_suspicion_timeout } (sample_machine ss_suspicion_setup)
    none (by decide) (by decide) rfl
  ⟨by decide, by decide, h.2.1⟩

theorem fini_state (m : Machine) (p : Ptr)
    (h : (statemachine_fini m p).2.sscid_count = 0) :
    (statemachine_fini m p).2.state = ss_shutdown := by
  cases hrem : fini_remove m.mem (m.mem p).id m.sscids_head with
  | none =>
    rw [fini_not_found m p hrem] at h ⊢
    by_cases h0 : m.sscid_count ≤ 0
    · simp [h0]
    · simp only [h0, if_false] at h
      omega
  | some l =>
    rw [fini_found m p l hrem] at h ⊢
    by_cases h0 : m.sscid_count - 1 ≤ 0
    · simp [h0]
    · simp only [h0, if_false] at h
      omega

theorem step_idle_inv (m m1 : Machine) (op : Op) (h : step m op = some m1)
    (hok : ∀ p, op ≠ Op.init p false)
    (hwf : m.sscid_count = m.sscids_head.length)
    (hinv : m.sscid_count = 0 → m.state = ss_shutdown) :
    m1.sscid_count = 0 → m1.state = ss_shutdown := by
  cases op with
  | init p ok =>
    cases ok with
    | true =>
      obtain ⟨_, _, hcnt, _, _, _⟩ := step_init_true m m1 p h
      intro h0
      omega
    | false => exact absurd rfl (hok p)
  | fini p =>
    simp only [step, Option.some.injEq] at h
    subst h
    exact fini_state m p
  | stimulate a =>
    obtain ⟨_, hcnt, _, _⟩ := step_other m m1 _ h (by simp) (by simp)
    simp only [step, Option.some.injEq] at h
    subst h
    intro h0
    rw [next_state_m_state, hinv (by rw [← hcnt]; exact h0)]
    exact switch_absorbed a
  | wait p =>
    obtain ⟨_, hcnt, _, _⟩ := step_other m m1 _ h (by simp) (by simp)
    by_cases hf : (m.mem p).state_haschanged = true
    · obtain ⟨m2, h2, hs, _⟩ := wait_of_flag m p hf
      simp only [step, h2, Option.map_some', Option.some.injEq] at h
      subst h
      intro h0
      rw [hs]; exact hinv (by rw [← hcnt]; exact h0)
    · simp [step, statemachine_wait_state_change, hf] at h
  | cancel p =>
    simp only [step, Option.some.injEq] at h
    subst h
    exact hinv

theorem exec_idle_inv (ops : List Op) :
    ∀ m m1 : Machine, exec m ops = some m1 → allocs_succeed ops = true →
      m.sscid_count = m.sscids_head.length → m.sscids_head.length ≤ 10 →
      (m.sscid_count = 0 → m.state = ss_shutdown) →
      (m1.sscid_count = 0 → m1.state = ss_shutdown) := by
  induction ops with
  | nil =>
    intro m m1 h _ _ _ hinv
    simp only [exec, Option.some.injEq] at h
    subst h; exact hinv
  | cons op ops ih =>
    intro m m1 h hall hwf hcap hinv
    cases hstep : step m op with
    | none => simp [exec, hstep] at h
    | some m2 =>
      simp only [exec, hstep] at h
      obtain ⟨hwf2, hcap2⟩ := step_count_inv m m2 op hstep hwf hcap
      have hok : ∀ p, op ≠ Op.init p false := by
        intro p hop
        subst hop
        simp [allocs_succeed] at hall
      have hall2 : allocs_succeed ops = true := by
        cases op with
        | init p ok => simp only [allocs_succeed, Bool.and_eq_true] at hall; exact hall.2
        | fini p => simpa [allocs_succeed] using hall
        | stimulate a => simpa [allocs_succeed] using hall
        | wait p => simpa [allocs_succeed] using hall
        | cancel p => simpa [allocs_succeed] using hall
      exact ih m2 m1 h hall2 hwf2 hcap2 (step_idle_inv m m2 op hstep hok hwf hinv)

/-- C35. With no client registered the machine is in Shutdown: in every
machine reached from program start by completed calls of the API in which
every allocation of a registration succeeds, a counter of registered clients
equal to zero (equivalently, an empty registry) implies that the current
state is Shutdown. -/
theorem C35_idle_machine_is_shutdown (mem0 : Ptr → statemachine_cid) (ops : List Op)
    (m : Machine) (hall : allocs_succeed ops = true)
    (hex : exec (initial_machine mem0) ops = some m) :
    (m.sscid_count = 0 → m.state = ss_shutdown)
      ∧ (m.sscids_head = [] → m.state = ss_shutdown) := by
  have hinv := exec_idle_inv ops (initial_machine mem0) m hex hall rfl
    (by simp [initial_machine]) (fun _ => rfl)
  obtain ⟨hwf, _⟩ := exec_count_inv ops _ m hex rfl (by simp [initial_machine])
  refine ⟨hinv, ?_⟩
  intro hnil
  apply hinv
  rw [hwf, hnil]; rfl

/-- C35 on a client that registers and leaves again: the machine is back in
Shutdown with no client registered, having been in Powerup in between. -/
theorem C35_idle_machine_is_shutdown_witness :
    (exec (initial_machine sample_mem) [Op.init 100 true]).map Machine.state = some ss_powerup
      ∧ exec (initial_machine sample_mem) (churn 1)
          = some ((exec (initial_machine sample_mem) (churn 1)).getD
              (initial_machine sample_mem))
      ∧ ((exec (initial_machine sample_mem) (churn 1)).getD
          (initial_machine sample_mem)).sscid_count = 0
      ∧ ((exec (initial_machine sample_mem) (churn 1)).getD
          (initial_machine sample_mem)).state = ss_shutdown :=
  ⟨by decide, rfl, by decide,
    (C35_idle_machine_is_shutdown sample_mem (churn 1)
      ((exec (initial_machine sample_mem) (churn 1)).getD (initial_machine sample_mem))
      (by decide) rfl).1 (by decide)⟩

theorem stimuli_sample_unchanged (w : World) (pin_int pin_ext : Bool)
    (h1 : pin_int = w.box_swstates.int_switch1) (h2 : pin_ext = w.box_swstates.ext_switch1) :
    stimuli (set_box_swstate w pin_int pin_ext).log = stimuli w.log
      ∧ (set_box_swstate w pin_int pin_ext).box_swstates = w.box_swstates
      ∧ (set_box_swstate w pin_int pin_ext).m = w.m := by
  obtain ⟨hlog, hbox, hm⟩ := set_box_swstate_unchanged w pin_int pin_ext
    (by rw [h1, h2]; simp)
  refine ⟨?_, hbox, hm⟩
  rw [hlog, stimuli_append, stimuli_append]
  split <;> simp [stimuli]

/-- C36. An unchanged sensor reading produces no stimulus: when
`set_box_swstate` samples the pair that is stored, it makes no call of
`statemachine_next_state` and leaves the stored pair and the machine as they
were. So after `init_box_swstate`, which stores (low, low), the pass of the
loop on Powerup with both pins low makes no such call and the machine stays
in Powerup. -/
theorem C36_unchanged_sample_silent (w : World) (pin_int pin_ext : Bool)
    (i : thread_inputs) :
    (pin_int = w.box_swstates.int_switch1 → pin_ext = w.box_swstates.ext_switch1 →
        stimuli (set_box_swstate w pin_int pin_ext).log = stimuli w.log
          ∧ (set_box_swstate w pin_int pin_ext).box_swstates = w.box_swstates
          ∧ (set_box_swstate w pin_int pin_ext).m = w.m)
      ∧ (init_box_swstate w).box_swstates = { int_switch1 := false, ext_switch1 := false }
      ∧ (i.pin_int = false → i.pin_ext = false →
          ∃ r, statemachine_thread_entry_switch (init_box_swstate w) ss_powerup i = some r
            ∧ stimuli r.w.log = stimuli w.log
            ∧ r.w.m = w.m
            ∧ (w.m.state = ss_powerup → r.w.m.state = ss_powerup)) := by
  refine ⟨stimuli_sample_unchanged w pin_int pin_ext, rfl, ?_⟩
  intro h1 h2
  obtain ⟨hlog, _, hm⟩ := stimuli_sample_unchanged (init_box_swstate w) i.pin_int i.pin_ext
    (by rw [h1]; rfl) (by rw [h2]; rfl)
  refine ⟨_, rfl, hlog, hm, ?_⟩
  intro hs
  have hstate := congrArg Machine.state hm
  exact hstate.trans hs

/-- C36 on the first pass of the loop: stored pair (low, low), machine in
Powerup, both pins low: the sample is the only call and the machine is still
in Powerup. -/
theorem C36_unchanged_sample_silent_witness :
    pass_calls (init_box_swstate (sample_world ss_powerup true true)) ss_powerup
        (sample_inputs 0) = some [Call.sample]
      ∧ ∃ r, statemachine_thread_entry_switch
            (init_box_swstate (sample_world ss_powerup true true)) ss_powerup (sample_inputs 0)
          = some r
        ∧ stimuli r.w.log = []
        ∧ r.w.m.state = ss_powerup :=
  ⟨by decide,
    ((C36_unchanged_sample_silent (sample_world ss_powerup true true) false false
      (sample_inputs 0)).2.2 rfl rfl).imp
      (fun _ h => ⟨h.1, h.2.1, h.2.2.2 rfl⟩)⟩

theorem run_state (l : List statemachine_actions_t) :
    ∀ m : Machine,
      (run m l).state = l.foldl (fun s a => (statemachine_next_state_switch s a).1) m.state := by
  induction l with
  | nil => intro m; rfl
  | cons a l ih =>
    intro m
    rw [run_cons, ih, next_state_m_state]
    rfl

/-- C37. No dead states: each of the 20 states is reached from Powerup by a
finite sequence of actions applied one after the other by
`statemachine_next_state`; `path_to` gives such a sequence for every state. -/
theorem C37_no_dead_states (m : Machine) (s : statemachine_states_t)
    (hm : m.state = ss_powerup) (hs : s ≠ ss_END) :
    (run m (path_to s)).state = s
      ∧ ∃ l : List statemachine_actions_t, (run m l).state = s := by
  have h : (run m (path_to s)).state = s := by
    rw [run_state, hm]
    revert hs
    cases s <;> decide
  exact ⟨h, path_to s, h⟩

/-- C37 for Suspicion3, the state farthest from Powerup. -/
theorem C37_no_dead_states_witness :
    (run (sample_machine ss_powerup) (path_to ss_suspicion_step3)).state = ss_suspicion_step3
      ∧ ∃ l : List statemachine_actions_t,
          (run (sample_machine ss_powerup) l).state = ss_suspicion_step3 :=
  ⟨by decide, (C37_no_dead_states (sample_machine ss_powerup) ss_suspicion_step3 rfl
    (by decide)).2⟩

end Uselessbox
